import Mathlib

/-!
# Bezier curve demo (`boilerplate/boilerplate.cpp`)

A shallow embedding of the scene generators, the glyph adapter, the geometry
buffer functions, the shader program builder, the key callback and the render
loop of `boilerplate.cpp`, followed by theorems about them.

Conventions of the embedding:

* `std::vector<T>` is a `List T`; `push_back` appends one element at the end and
  `clear` gives `[]`.
* `float` coordinates are exact rationals: every literal denotes its rational
  value and rounding is not modelled.  The theorems below only use equality
  of positions and lengths of sequences.
* `GLuint` names are naturals.  An `int` or `GLsizei` value is an integer; where
  `main` passes a `vector::size()` as the `int` argument of `LoadGeometry`, the
  conversion to 32 bits is `narrowToInt`.
* The graphics driver, the file system and the font parser are oracles passed
  as arguments; the OpenGL calls a function makes are returned as a trace.
-/

namespace Boilerplate

/-- The call `v.clear()` on a `std::vector`: all elements are removed. -/
def clear {α : Type} (_v : List α) : List α := []

/-! ## Vectors -/

/-- Two-component vector, `glm::vec2`. -/
structure vec2 where
  x : ℚ
  y : ℚ
deriving DecidableEq

/-- Three-component vector, `glm::vec3`. -/
structure vec3 where
  x : ℚ
  y : ℚ
  z : ℚ
deriving DecidableEq

/-- Component-wise difference, `operator-` of `glm::vec2`. -/
instance : Sub vec2 := ⟨fun a b => ⟨a.x - b.x, a.y - b.y⟩⟩

/-- Division of a vector by a scalar, `operator/` of `glm::vec2`. -/
instance : HDiv vec2 ℚ vec2 := ⟨fun a c => ⟨a.x / c, a.y / c⟩⟩

/-! ## Glyphs (`GlyphExtractor.h`, consumed read-only) -/

/-- One curve segment of a glyph: coordinate arrays `x`, `y` (read at offsets
`0..degree`; offsets above 3 lie outside the arrays `float x[4]`, `float y[4]`)
and the `degree`. -/
structure MySegment where
  x : ℕ → ℚ
  y : ℕ → ℚ
  degree : ℕ

/-- A contour is a sequence of segments. -/
abbrev MyContour := List MySegment

/-- A glyph is a sequence of contours. -/
structure MyGlyph where
  contours : List MyContour

/-- Font parser oracle: `LoadFontFile(fontString)` followed by
`ExtractGlyph(letter)`. -/
abbrev GlyphExtractor := String → Char → MyGlyph

/-- Control point `k` of a segment, `vec2(seg.x[k], seg.y[k])`. -/
def MySegment.point (seg : MySegment) (k : ℕ) : vec2 := ⟨seg.x k, seg.y k⟩

/-- Body of the segment loop of `extractLetter` (lines 267-275): the first loop
pushes the points `0 .. degree-1`, the second pushes `4 - degree` copies of
point `degree`; each push is accompanied by the colour `(1,0,0)`. -/
def extractLetter.segment (seg : MySegment) (acc : List vec2 × List vec3) :
    List vec2 × List vec3 :=
  let acc1 := (List.range seg.degree).foldl
    (fun a k => (a.1 ++ [vec2.mk (seg.x k) (seg.y k)], a.2 ++ [vec3.mk 1 0 0])) acc
  (List.range (4 - seg.degree)).foldl
    (fun a _ => (a.1 ++ [vec2.mk (seg.x seg.degree) (seg.y seg.degree)],
                 a.2 ++ [vec3.mk 1 0 0])) acc1

/-- The function `extractLetter` (lines 260-279): for each contour and each
segment of the glyph of `letter`, run the segment body on the output
vectors. -/
def extractLetter (extractor : GlyphExtractor) (rPointsLocal : List vec2)
    (rColorsLocal : List vec3) (letter : Char) (fontString : String) :
    List vec2 × List vec3 :=
  let rGlyph := extractor fontString letter
  rGlyph.contours.foldl
    (fun acc contour => contour.foldl (fun a seg => extractLetter.segment seg a) acc)
    (rPointsLocal, rColorsLocal)

/-- Points pushed by the segment body for a list of segments, in order. -/
def emittedPoints (segs : List MySegment) : List vec2 :=
  (segs.foldl (fun a seg => extractLetter.segment seg a) ([], [])).1

/-- Colours pushed by the segment body for a list of segments, in order. -/
def emittedColours (segs : List MySegment) : List vec3 :=
  (segs.foldl (fun a seg => extractLetter.segment seg a) ([], [])).2

/-- One placement loop of `extractFont` (for example lines 303-307): every point
`p` of a letter becomes `p/2.f - offset` and is pushed with the colour
`(1,0,0)`. -/
def extractFont.place (letterPoints : List vec2) (offset : vec2)
    (acc : List vec2 × List vec3) : List vec2 × List vec3 :=
  letterPoints.foldl
    (fun a p => (a.1 ++ [p / (2 : ℚ) - offset], a.2 ++ [vec3.mk 1 0 0])) acc

/-- The function `extractFont` (lines 282-333): the six letters are extracted
into fresh local vectors, then placed one after the other. -/
def extractFont (extractor : GlyphExtractor) (fontPoints : List vec2)
    (fontColors : List vec3) (fontString : String) : List vec2 × List vec3 :=
  let RPoints := (extractLetter extractor [] [] 'R' fontString).1
  let oPoints := (extractLetter extractor [] [] 'o' fontString).1
  let bPoints := (extractLetter extractor [] [] 'b' fontString).1
  let ePoints := (extractLetter extractor [] [] 'e' fontString).1
  let rPoints := (extractLetter extractor [] [] 'r' fontString).1
  let tPoints := (extractLetter extractor [] [] 't' fontString).1
  let a0 := extractFont.place RPoints ⟨0.8, 0.1⟩ (fontPoints, fontColors)
  let a1 := extractFont.place oPoints ⟨0.5, 0.1⟩ a0
  let a2 := extractFont.place bPoints ⟨0.2, 0.1⟩ a1
  let a3 := extractFont.place ePoints ⟨-0.1, 0.1⟩ a2
  let a4 := extractFont.place rPoints ⟨-0.4, 0.1⟩ a3
  extractFont.place tPoints ⟨-0.65, 0.1⟩ a4

/-! ## Scene generators -/

/-- The six destination vectors shared by `mug` and `fish`. -/
structure Destinations where
  vertices : List vec2
  colours : List vec3
  verticesControl : List vec2
  coloursControl : List vec3
  verticesControlPoints : List vec2
  coloursControlPoints : List vec3
deriving DecidableEq

/-- Six empty destination vectors. -/
def Destinations.empty : Destinations := ⟨[], [], [], [], [], []⟩

/-- The function `mug` (lines 337-406).  Every statement is a `push_back`; the
counted loops push the same value `n` times. -/
def mug (d : Destinations) : Destinations :=
  { vertices := d.vertices ++
      [⟨1/3, 1/3⟩, ⟨2/3, -1/3⟩, ⟨0, -1/3⟩, ⟨0, 0⟩,
       ⟨0, -1/3⟩, ⟨-2/3, -1/3⟩, ⟨-1/3, 1/3⟩, ⟨0, 0⟩,
       ⟨-1/3, 1/3⟩, ⟨0, 1/3⟩, ⟨1/3, 1/3⟩, ⟨0, 0⟩,
       ⟨0.4, 0.5/3⟩, ⟨2.5/3, 1/3⟩, ⟨1.3/3, -0.4/3⟩, ⟨0, 0⟩]
    colours := d.colours ++ List.replicate 16 ⟨1, 0, 1⟩
    verticesControl := d.verticesControl ++ [⟨1/3, 1/3⟩]
      ++ List.replicate 2 ⟨2/3, -1/3⟩
      ++ List.replicate 2 ⟨0, -1/3⟩
      ++ List.replicate 2 ⟨0, -1/3⟩
      ++ List.replicate 2 ⟨-2/3, -1/3⟩
      ++ List.replicate 2 ⟨-1/3, 1/3⟩
      ++ List.replicate 2 ⟨-1/3, 1/3⟩
      ++ List.replicate 2 ⟨0, 1/3⟩
      ++ List.replicate 2 ⟨1/3, 1/3⟩
      ++ List.replicate 2 ⟨0.4, 0.5/3⟩
      ++ List.replicate 2 ⟨2.5/3, 1/3⟩
      ++ [⟨1.3/3, -0.4/3⟩]
    coloursControl := d.coloursControl ++ List.replicate 22 ⟨0, 0, 1⟩
    verticesControlPoints := d.verticesControlPoints ++
      [⟨1/3, 1/3⟩, ⟨2/3, -1/3⟩, ⟨0, -1/3⟩,
       ⟨0, -1/3⟩, ⟨-2/3, -1/3⟩, ⟨-1/3, 1/3⟩,
       ⟨-1/3, 1/3⟩, ⟨0, 1/3⟩, ⟨1/3, 1/3⟩,
       ⟨0.4, 0.5/3⟩, ⟨2.5/3, 1/3⟩, ⟨1.3/3, -0.4/3⟩]
    coloursControlPoints := (List.range 4).foldl
      (fun c _ => c ++ [⟨1, 0, 0⟩] ++ [⟨1, 1, 1⟩] ++ [⟨1, 0, 0⟩]) d.coloursControlPoints }

/-- The twenty control points pushed three times by `fish`, before the
shift. -/
def fish.points : List vec2 :=
  [⟨1/6, 1/6⟩, ⟨4/6, 0⟩, ⟨6/6, 2/6⟩, ⟨9/6, 1/6⟩,
   ⟨8/6, 2/6⟩, ⟨0, 8/6⟩, ⟨0, -2/6⟩, ⟨8/6, 4/6⟩,
   ⟨5/6, 3/6⟩, ⟨3/6, 2/6⟩, ⟨3/6, 3/6⟩, ⟨5/6, 2/6⟩,
   ⟨3/6, 2.2/6⟩, ⟨3.5/6, 2.7/6⟩, ⟨3.5/6, 3.3/6⟩, ⟨3/6, 3.8/6⟩,
   ⟨2.8/6, 3.5/6⟩, ⟨2.4/6, 3.8/6⟩, ⟨2.4/6, 3.2/6⟩, ⟨2.8/6, 3.5/6⟩]

/-- The function `fish` (lines 409-522): the six vectors are cleared first;
each position vector receives the twenty points and is then shifted as a whole
by `vec2(0.75, 0.5)` in a loop over all of its elements. -/
def fish (d : Destinations) : Destinations :=
  let vertices := clear d.vertices
  let colours := clear d.colours
  let verticesControl := clear d.verticesControl
  let coloursControl := clear d.coloursControl
  let verticesControlPoints := clear d.verticesControlPoints
  let coloursControlPoints := clear d.coloursControlPoints
  { vertices := (vertices ++ fish.points).map (fun p => p - ⟨0.75, 0.5⟩)
    colours := colours ++ List.replicate 20 ⟨1, 0, 1⟩
    verticesControl := (verticesControl ++ fish.points).map (fun p => p - ⟨0.75, 0.5⟩)
    coloursControl := coloursControl ++ List.replicate 20 ⟨0, 0, 1⟩
    verticesControlPoints :=
      (verticesControlPoints ++ fish.points).map (fun p => p - ⟨0.75, 0.5⟩)
    coloursControlPoints := (List.range 5).foldl
      (fun c _ => c ++ [⟨1, 0, 0⟩] ++ [⟨1, 1, 1⟩] ++ [⟨1, 1, 1⟩] ++ [⟨1, 0, 0⟩])
      coloursControlPoints }

/-! ## Geometry buffers and the OpenGL trace -/

/-- OpenGL enumerants used by the program. -/
inductive GLenum where
  | GL_PATCHES
  | GL_LINE_STRIP
  | GL_POINTS
  | GL_ARRAY_BUFFER
  | GL_STATIC_DRAW
  | GL_FLOAT
  | GL_PATCH_VERTICES
  | GL_COLOR_BUFFER_BIT
  | GL_VERTEX_SHADER
  | GL_FRAGMENT_SHADER
  | GL_TESS_CONTROL_SHADER
  | GL_TESS_EVALUATION_SHADER
deriving DecidableEq

open GLenum

/-- Value of `GL_NO_ERROR`, the flag `glGetError` returns when no error is
pending. -/
def GL_NO_ERROR : ℕ := 0

/-- Host memory handed to `glBufferData`: the array behind a `vec2*` or a
`vec3*`. -/
inductive HostData where
  | positions (data : List vec2)
  | colours (data : List vec3)
deriving DecidableEq

/-- OpenGL calls recorded in the trace of a function. -/
inductive GLCall where
  | glGenBuffers (name : ℕ)
  | glGenVertexArrays (name : ℕ)
  | glVertexAttribPointer (index : ℕ) (size : ℤ) (type : GLenum) (stride : ℤ)
  | glEnableVertexAttribArray (index : ℕ)
  | glUseProgram (program : ℕ)
  | glBindVertexArray (array : ℕ)
  | glBindBuffer (target : GLenum) (buffer : ℕ)
  | glBufferData (target : GLenum) (size : ℤ) (data : HostData) (usage : GLenum)
  | glDrawArrays (mode : GLenum) (first : ℤ) (count : ℤ)
  | glPatchParameteri (pname : GLenum) (value : ℤ)
  | glClearColor (r g b a : ℚ)
  | glClear (mask : GLenum)
deriving DecidableEq

/-- The function `CheckGLErrors` (lines 734-757) as a loop over `flags`, the
values successive `glGetError` calls return (`GL_NO_ERROR` once the list is
used up); `error` is the local variable of the same name. -/
def CheckGLErrors.loop : List ℕ → Bool → Bool
  | [], error => error
  | flag :: rest, error =>
    if flag = GL_NO_ERROR then error else CheckGLErrors.loop rest true

/-- The function `CheckGLErrors`: true when an error flag was pending. -/
def CheckGLErrors (flags : List ℕ) : Bool := CheckGLErrors.loop flags false

/-- Conversion of a `size_t` value to `int` (32 bits, two's complement), as
when `vertices.size()` is passed for `int elementCount`: the value modulo
`2^32` taken in the range from `-2^31` to `2^31 - 1`. -/
def narrowToInt (n : ℕ) : ℤ := ((n : ℤ) + 2147483648) % 4294967296 - 2147483648

/-- The struct `Geometry` (lines 105-117). -/
structure Geometry where
  vertexBuffer : ℕ
  textureBuffer : ℕ
  colourBuffer : ℕ
  vertexArray : ℕ
  elementCount : ℤ
deriving DecidableEq

/-- The constructor `Geometry()`; `textureBuffer` is left uninitialised by it
and is given here. -/
def Geometry.new (textureBuffer : ℕ) : Geometry :=
  { vertexBuffer := 0, textureBuffer := textureBuffer, colourBuffer := 0,
    vertexArray := 0, elementCount := 0 }

/-- Result of a geometry function: the geometry afterwards, the OpenGL calls
made, and the returned `bool`. -/
structure GeometryResult where
  geometry : Geometry
  calls : List GLCall
  ok : Bool
deriving DecidableEq

/-- The function `InitializeVAO` (lines 119-163); `names` are the object names
the driver generates for the vertex buffer, the colour buffer and the vertex
array. -/
def InitializeVAO (geometry : Geometry) (names : ℕ × ℕ × ℕ) (flags : List ℕ) :
    GeometryResult :=
  let VERTEX_INDEX := 0
  let COLOUR_INDEX := 1
  let geometry := { geometry with vertexBuffer := names.1 }
  let geometry := { geometry with colourBuffer := names.2.1 }
  let geometry := { geometry with vertexArray := names.2.2 }
  { geometry := geometry
    calls :=
      [.glGenBuffers geometry.vertexBuffer, .glGenBuffers geometry.colourBuffer,
       .glGenVertexArrays geometry.vertexArray, .glBindVertexArray geometry.vertexArray,
       .glBindBuffer GL_ARRAY_BUFFER geometry.vertexBuffer,
       .glVertexAttribPointer VERTEX_INDEX 2 GL_FLOAT 8,
       .glEnableVertexAttribArray VERTEX_INDEX,
       .glBindBuffer GL_ARRAY_BUFFER geometry.colourBuffer,
       .glVertexAttribPointer COLOUR_INDEX 3 GL_FLOAT 12,
       .glEnableVertexAttribArray COLOUR_INDEX,
       .glBindBuffer GL_ARRAY_BUFFER 0, .glBindVertexArray 0]
    ok := !CheckGLErrors flags }

/-- The function `LoadGeometry` (lines 166-183).  `vertices` and `colours` are
the arrays behind the two pointers; `sizeof(vec2)` is 8 and `sizeof(vec3)` is
12. -/
def LoadGeometry (geometry : Geometry) (vertices : List vec2) (colours : List vec3)
    (elementCount : ℤ) (flags : List ℕ) : GeometryResult :=
  let geometry := { geometry with elementCount := elementCount }
  { geometry := geometry
    calls :=
      [.glBindBuffer GL_ARRAY_BUFFER geometry.vertexBuffer,
       .glBufferData GL_ARRAY_BUFFER (8 * geometry.elementCount) (.positions vertices)
         GL_STATIC_DRAW,
       .glBindBuffer GL_ARRAY_BUFFER geometry.colourBuffer,
       .glBufferData GL_ARRAY_BUFFER (12 * geometry.elementCount) (.colours colours)
         GL_STATIC_DRAW,
       .glBindBuffer GL_ARRAY_BUFFER 0]
    ok := !CheckGLErrors flags }

/-- The function `RenderScene` (lines 198-220), as the trace of its OpenGL
calls. -/
def RenderScene (geometry : Geometry) (program : ℕ) (type : ℤ) : List GLCall :=
  [.glUseProgram program, .glBindVertexArray geometry.vertexArray]
  ++ (if type = 0 then [.glDrawArrays GL_PATCHES 0 geometry.elementCount]
      else if type = 1 then [.glDrawArrays GL_LINE_STRIP 0 geometry.elementCount]
      else if type = 2 then [.glDrawArrays GL_POINTS 0 geometry.elementCount]
      else [])
  ++ [.glBindVertexArray 0, .glUseProgram 0]

/-- The draw calls (`glDrawArrays`) of a trace, in order. -/
def drawCalls (calls : List GLCall) : List GLCall :=
  calls.filter (fun c => match c with
    | .glDrawArrays _ _ _ => true
    | _ => false)

/-- The buffer uploads (`glBufferData`) of a trace, in order. -/
def uploads (calls : List GLCall) : List GLCall :=
  calls.filter (fun c => match c with
    | .glBufferData _ _ _ _ => true
    | _ => false)

/-! ## Keyboard input -/

/-- Key and action codes of `GLFW/glfw3.h`. -/
def GLFW_PRESS : ℤ := 1
/-- Key code of Escape in `GLFW/glfw3.h`. -/
def GLFW_KEY_ESCAPE : ℤ := 256
/-- Key code of B. -/
def GLFW_KEY_B : ℤ := 66
/-- Key code of N. -/
def GLFW_KEY_N : ℤ := 78
/-- Key code of F. -/
def GLFW_KEY_F : ℤ := 70
/-- Key code of G. -/
def GLFW_KEY_G : ℤ := 71
/-- Key code of H. -/
def GLFW_KEY_H : ℤ := 72

/-- The part of a `GLFWwindow` the program uses: its close flag. -/
structure GLFWwindow where
  shouldClose : Bool
deriving DecidableEq

/-- The call `glfwSetWindowShouldClose(window, GL_TRUE)`. -/
def glfwSetWindowShouldClose (_window : GLFWwindow) : GLFWwindow := { shouldClose := true }

/-- The function `KeyCallback` (lines 238-256) on the window and the global
`sceneId`; it returns both afterwards. -/
def KeyCallback (window : GLFWwindow) (sceneId : ℤ) (key _scancode action _mods : ℤ) :
    GLFWwindow × ℤ :=
  let window :=
    if key = GLFW_KEY_ESCAPE ∧ action = GLFW_PRESS then glfwSetWindowShouldClose window
    else window
  let sceneId :=
    if action = GLFW_PRESS then
      if key = GLFW_KEY_B then 0
      else if key = GLFW_KEY_N then 1
      else if key = GLFW_KEY_F then 2
      else if key = GLFW_KEY_G then 3
      else if key = GLFW_KEY_H then 4
      else sceneId
    else sceneId
  (window, sceneId)

/-! ## Shader program builder -/

/-- File system oracle: the contents of a file, or `none` when it cannot be
opened. -/
abbrev FileSystem := String → Option String

/-- Driver oracle for one shader program build: the object names it hands out,
the compile and link status it reports with their info logs, and the values
successive `glGetError` calls return in `CheckGLErrors`. -/
structure ShaderDriver where
  glCreateShader : GLenum → ℕ
  compileStatus : GLenum → String → Bool
  shaderInfoLog : GLenum → String → String
  glCreateProgram : ℕ
  linkStatus : List ℕ → Bool
  programInfoLog : String
  errorFlags : List ℕ

/-- The function `LoadSource` (lines 763-780): the file contents, or the empty
string and a console line when the file cannot be opened. -/
def LoadSource (fs : FileSystem) (filename : String) : String × List String :=
  match fs filename with
  | some source => (source, [])
  | none => ("", ["ERROR: Could not load shader source from file " ++ filename])

/-- The function `CompileShader` (lines 783-808): the shader object name is
returned whatever the compile status; a failed compile only prints (the
message, an empty line, the source and the info log). -/
def CompileShader (drv : ShaderDriver) (shaderType : GLenum) (source : String) :
    ℕ × List String :=
  let shaderObject := drv.glCreateShader shaderType
  let status := drv.compileStatus shaderType source
  (shaderObject,
   if status = false then
     ["ERROR compiling shader:", "", source, drv.shaderInfoLog shaderType source]
   else [])

/-- The function `LinkProgram` (lines 811-839): non-zero shader objects are
attached, the program object name is returned whatever the link status; a
failed link only prints. -/
def LinkProgram (drv : ShaderDriver) (vertexShader fragmentShader tcsShader tesShader : ℕ) :
    ℕ × List String :=
  let programObject := drv.glCreateProgram
  let attached :=
    (if vertexShader ≠ 0 then [vertexShader] else [])
    ++ (if fragmentShader ≠ 0 then [fragmentShader] else [])
    ++ (if tcsShader ≠ 0 then [tcsShader] else [])
    ++ (if tesShader ≠ 0 then [tesShader] else [])
  let status := drv.linkStatus attached
  (programObject,
   if status = false then ["ERROR linking shader program:", drv.programInfoLog] else [])

/-- The function `InitializeShaders` (lines 72-100): the returned program name
and the console lines printed. -/
def InitializeShaders (fs : FileSystem) (drv : ShaderDriver) : ℕ × List String :=
  let vertexSource := LoadSource fs "shaders/vertex.glsl"
  let fragmentSource := LoadSource fs "shaders/fragment.glsl"
  let tcsSource := LoadSource fs "shaders/tessControl.glsl"
  let tesSource := LoadSource fs "shaders/tessEval.glsl"
  let log := vertexSource.2 ++ fragmentSource.2 ++ tcsSource.2 ++ tesSource.2
  if vertexSource.1.isEmpty ∨ fragmentSource.1.isEmpty then (0, log)
  else
    let vertex := CompileShader drv GL_VERTEX_SHADER vertexSource.1
    let fragment := CompileShader drv GL_FRAGMENT_SHADER fragmentSource.1
    let tcs := CompileShader drv GL_TESS_CONTROL_SHADER tcsSource.1
    let tes := CompileShader drv GL_TESS_EVALUATION_SHADER tesSource.1
    let program := LinkProgram drv vertex.1 fragment.1 tcs.1 tes.1
    let log := log ++ vertex.2 ++ fragment.2 ++ tcs.2 ++ tes.2 ++ program.2
    if CheckGLErrors drv.errorFlags then (0, log)
    else (program.1, log)

/-- The function `InitializeShaders2` (lines 50-69). -/
def InitializeShaders2 (fs : FileSystem) (drv : ShaderDriver) : ℕ × List String :=
  let vertexSource := LoadSource fs "shaders/vertex2.glsl"
  let fragmentSource := LoadSource fs "shaders/fragment.glsl"
  let log := vertexSource.2 ++ fragmentSource.2
  if vertexSource.1.isEmpty ∨ fragmentSource.1.isEmpty then (0, log)
  else
    let vertex := CompileShader drv GL_VERTEX_SHADER vertexSource.1
    let fragment := CompileShader drv GL_FRAGMENT_SHADER fragmentSource.1
    let program := LinkProgram drv vertex.1 fragment.1 0 0
    (program.1, log ++ vertex.2 ++ fragment.2 ++ program.2)

/-- Start of `main` (lines 527-582): either the value `main` returns at once,
or the window and the three program names the render loop starts with.
`glfwInit`, `window` and `gladLoadGL` are what the three library calls
return. -/
def main.startup (glfwInit : Bool) (window : Option GLFWwindow) (gladLoadGL : Bool)
    (fs : FileSystem) (drv drv2 drv3 : ShaderDriver) : Except ℤ (GLFWwindow × ℕ × ℕ × ℕ) :=
  if glfwInit = false then .error (-1)
  else match window with
    | none => .error (-1)
    | some window =>
      if gladLoadGL = false then .error (-1)
      else
        let program := (InitializeShaders fs drv).1
        if program = 0 then .error (-1)
        else
          let program2 := (InitializeShaders2 fs drv2).1
          if program2 = 0 then .error (-1)
          else
            let program3 := (InitializeShaders2 fs drv3).1
            if program3 = 0 then .error (-1)
            else .ok (window, program, program2, program3)

/-! ## Render loop -/

/-- Local variables of `main` that live across the render loop, the window,
and the global `sceneId`. -/
structure MainState extends Destinations where
  fontPoints : List vec2
  fontColors : List vec3
  patchSize : ℤ
  lastScene : ℤ
  geometry : Geometry
  geometryControl : Geometry
  geometryControlPoints : Geometry
  geometryGlyph : Geometry
  program : ℕ
  program2 : ℕ
  program3 : ℕ
  window : GLFWwindow
  sceneId : ℤ
deriving DecidableEq

/-- Arguments of one `LoadGeometry` call made by `main`, and the geometry after
the call. -/
structure LoadCall where
  vertices : List vec2
  colours : List vec3
  elementCount : ℤ
  geometry : Geometry
deriving DecidableEq

/-- Outcome of a stretch of `main`: the state afterwards, the `LoadGeometry`
calls made and the OpenGL trace, both in order. -/
structure FrameResult where
  state : MainState
  loads : List LoadCall
  calls : List GLCall
deriving DecidableEq

/-- Lines 586-635 of `main`: the vectors start empty, the four geometries are
created, initialised and loaded with the empty vectors.  `textureBuffer`,
`names` and `errs` are what the driver and the uninitialised field supply to
the four geometries (glyph, filled, control polygon, control points) and to the
eight error checks. -/
def main.setup (window : GLFWwindow) (program program2 program3 : ℕ)
    (textureBuffer : ℕ → ℕ) (names : ℕ → ℕ × ℕ × ℕ) (errs : ℕ → List ℕ) : FrameResult :=
  let vertices : List vec2 := []
  let colours : List vec3 := []
  let verticesControl : List vec2 := []
  let coloursControl : List vec3 := []
  let verticesControlPoints : List vec2 := []
  let coloursControlPoints : List vec3 := []
  let fontPoints : List vec2 := []
  let fontColors : List vec3 := []
  let patchSize : ℤ := 4
  let lastScene : ℤ := -1
  let iGlyph := InitializeVAO (Geometry.new (textureBuffer 3)) (names 3) (errs 0)
  let lGlyph := LoadGeometry iGlyph.geometry fontPoints fontColors
    (narrowToInt fontPoints.length) (errs 1)
  let i0 := InitializeVAO (Geometry.new (textureBuffer 0)) (names 0) (errs 2)
  let l0 := LoadGeometry i0.geometry vertices colours (narrowToInt vertices.length) (errs 3)
  let i1 := InitializeVAO (Geometry.new (textureBuffer 1)) (names 1) (errs 4)
  let l1 := LoadGeometry i1.geometry verticesControl coloursControl
    (narrowToInt verticesControl.length) (errs 5)
  let i2 := InitializeVAO (Geometry.new (textureBuffer 2)) (names 2) (errs 6)
  let l2 := LoadGeometry i2.geometry verticesControlPoints coloursControlPoints
    (narrowToInt verticesControlPoints.length) (errs 7)
  { state :=
      { vertices := vertices, colours := colours, verticesControl := verticesControl,
        coloursControl := coloursControl, verticesControlPoints := verticesControlPoints,
        coloursControlPoints := coloursControlPoints, fontPoints := fontPoints,
        fontColors := fontColors, patchSize := patchSize, lastScene := lastScene,
        geometry := l0.geometry, geometryControl := l1.geometry,
        geometryControlPoints := l2.geometry, geometryGlyph := lGlyph.geometry,
        program := program, program2 := program2, program3 := program3,
        window := window, sceneId := 0 }
    loads :=
      [⟨fontPoints, fontColors, narrowToInt fontPoints.length, lGlyph.geometry⟩,
       ⟨vertices, colours, narrowToInt vertices.length, l0.geometry⟩,
       ⟨verticesControl, coloursControl, narrowToInt verticesControl.length, l1.geometry⟩,
       ⟨verticesControlPoints, coloursControlPoints,
        narrowToInt verticesControlPoints.length, l2.geometry⟩]
    calls := iGlyph.calls ++ lGlyph.calls ++ [.glPatchParameteri GL_PATCH_VERTICES patchSize]
      ++ i0.calls ++ l0.calls ++ [.glPatchParameteri GL_PATCH_VERTICES patchSize]
      ++ i1.calls ++ l1.calls ++ i2.calls ++ l2.calls }

/-- The statements shared by the mug and fish branches after the generator call
(lines 664-671 and 676-683): three loads and three draws.  Each count is the
`size()` of the position vector converted to `int`. -/
def main.drawShape (s : MainState) (errs : ℕ → List ℕ) : FrameResult :=
  let patchSize : ℤ := 4
  let l0 := LoadGeometry s.geometry s.vertices s.colours
    (narrowToInt s.vertices.length) (errs 0)
  let l1 := LoadGeometry s.geometryControl s.verticesControl s.coloursControl
    (narrowToInt s.verticesControl.length) (errs 1)
  let l2 := LoadGeometry s.geometryControlPoints s.verticesControlPoints
    s.coloursControlPoints (narrowToInt s.verticesControlPoints.length) (errs 2)
  { state := { s with patchSize := patchSize, geometry := l0.geometry,
                      geometryControl := l1.geometry, geometryControlPoints := l2.geometry }
    loads :=
      [⟨s.vertices, s.colours, narrowToInt s.vertices.length, l0.geometry⟩,
       ⟨s.verticesControl, s.coloursControl, narrowToInt s.verticesControl.length,
        l1.geometry⟩,
       ⟨s.verticesControlPoints, s.coloursControlPoints,
        narrowToInt s.verticesControlPoints.length, l2.geometry⟩]
    calls := l0.calls ++ [.glPatchParameteri GL_PATCH_VERTICES patchSize]
      ++ l1.calls ++ l2.calls
      ++ RenderScene l0.geometry s.program 0
      ++ RenderScene l1.geometry s.program2 1
      ++ RenderScene l2.geometry s.program3 2 }

/-- The statements of a font branch (lines 686-688, 690-692, 694-696).  The
count is `fontPoints.size()` converted to `int`. -/
def main.drawFont (extractor : GlyphExtractor) (s : MainState) (fontString : String)
    (errs : ℕ → List ℕ) : FrameResult :=
  let f := extractFont extractor s.fontPoints s.fontColors fontString
  let l := LoadGeometry s.geometryGlyph f.1 f.2 (narrowToInt f.1.length) (errs 0)
  { state := { s with fontPoints := f.1, fontColors := f.2, geometryGlyph := l.geometry }
    loads := [⟨f.1, f.2, narrowToInt f.1.length, l.geometry⟩]
    calls := l.calls ++ RenderScene l.geometry s.program 0 }

/-- The scene-change block of the render loop (lines 645-659): when the
selected scene differs from the one rendered last, the colour buffer and the
eight vectors are cleared and `lastScene` is updated. -/
def main.clearOnChange (s : MainState) : MainState × List GLCall :=
  if s.lastScene ≠ s.sceneId then
    ({ s with vertices := clear s.vertices, colours := clear s.colours,
              verticesControl := clear s.verticesControl,
              coloursControl := clear s.coloursControl,
              verticesControlPoints := clear s.verticesControlPoints,
              coloursControlPoints := clear s.coloursControlPoints,
              fontPoints := clear s.fontPoints, fontColors := clear s.fontColors,
              lastScene := s.sceneId },
     [.glClearColor 0.2 0.2 0.2 1.0, .glClear GL_COLOR_BUFFER_BIT])
  else (s, [])

/-- The scene selection of the render loop (lines 661-697).  `errs` supplies
the error flags seen by the `LoadGeometry` calls. -/
def main.selectScene (extractor : GlyphExtractor) (errs : ℕ → List ℕ) (s : MainState) :
    FrameResult :=
  if s.sceneId = 0 then
    main.drawShape { s with toDestinations := mug s.toDestinations } errs
  else if s.sceneId = 1 then
    main.drawShape { s with toDestinations := fish s.toDestinations } errs
  else if s.sceneId = 2 then main.drawFont extractor s "SourceSansPro-Regular.otf" errs
  else if s.sceneId = 3 then main.drawFont extractor s "Lora-Regular.ttf" errs
  else if s.sceneId = 4 then main.drawFont extractor s "Inconsolata.otf" errs
  else { state := s, loads := [], calls := [] }

/-- One iteration of the render loop up to the buffer swap (lines 643-697). -/
def main.frame (extractor : GlyphExtractor) (errs : ℕ → List ℕ) (s : MainState) :
    FrameResult :=
  let c := main.clearOnChange s
  let r := main.selectScene extractor errs c.1
  { r with calls := [.glUseProgram s.program] ++ c.2 ++ r.calls }

/-- An input event delivered by `glfwPollEvents`: a key event, or a close
request from the window system. -/
inductive Event where
  | key (key scancode action mods : ℤ)
  | close
deriving DecidableEq

/-- The call `glfwPollEvents()` (line 702): the pending events are handled in
order, key events by `KeyCallback`. -/
def main.pollEvents (events : List Event) (s : MainState) : MainState :=
  events.foldl
    (fun s e => match e with
      | .key key scancode action mods =>
        let r := KeyCallback s.window s.sceneId key scancode action mods
        { s with window := r.1, sceneId := r.2 }
      | .close => { s with window := glfwSetWindowShouldClose s.window })
    s

/-- States at the head of the render loop (line 641): the state `main.setup`
leaves, and every state reached by running an iteration while the window is
open and then polling events. -/
inductive main.Reachable (extractor : GlyphExtractor) : MainState → Prop where
  | start (window : GLFWwindow) (program program2 program3 : ℕ) (textureBuffer : ℕ → ℕ)
      (names : ℕ → ℕ × ℕ × ℕ) (errs : ℕ → List ℕ) :
      main.Reachable extractor
        (main.setup window program program2 program3 textureBuffer names errs).state
  | step (s : MainState) (errs : ℕ → List ℕ) (events : List Event) :
      main.Reachable extractor s → s.window.shouldClose = false →
      main.Reachable extractor (main.pollEvents events (main.frame extractor errs s).state)

/-- The eight point and colour vectors of a state. -/
def MainState.sequences (s : MainState) : Destinations × List vec2 × List vec3 :=
  (s.toDestinations, s.fontPoints, s.fontColors)

/-- Effect of the scene selection (lines 661-697) on the eight vectors: the
generator or adapter call of the branch taken. -/
def main.generate (extractor : GlyphExtractor) (sceneId : ℤ)
    (q : Destinations × List vec2 × List vec3) : Destinations × List vec2 × List vec3 :=
  if sceneId = 0 then (mug q.1, q.2)
  else if sceneId = 1 then (fish q.1, q.2)
  else if sceneId = 2 then (q.1, extractFont extractor q.2.1 q.2.2 "SourceSansPro-Regular.otf")
  else if sceneId = 3 then (q.1, extractFont extractor q.2.1 q.2.2 "Lora-Regular.ttf")
  else if sceneId = 4 then (q.1, extractFont extractor q.2.1 q.2.2 "Inconsolata.otf")
  else q

/-- A frame run with scene `X` selected: `sceneId` holds `X` when the loop
body starts. -/
def main.frameWith (extractor : GlyphExtractor) (errs : ℕ → List ℕ) (X : ℤ) (s : MainState) :
    MainState :=
  (main.frame extractor errs { s with sceneId := X }).state

/-- The `LoadGeometry` calls `main` makes: those of the set-up, and those of
every render-loop iteration run from a reachable state with the window open. -/
inductive main.LoadCallMade (extractor : GlyphExtractor) : LoadCall → Prop where
  | setup (window : GLFWwindow) (program program2 program3 : ℕ) (textureBuffer : ℕ → ℕ)
      (names : ℕ → ℕ × ℕ × ℕ) (errs : ℕ → List ℕ) (c : LoadCall) :
      c ∈ (main.setup window program program2 program3 textureBuffer names errs).loads →
      main.LoadCallMade extractor c
  | frame (s : MainState) (errs : ℕ → List ℕ) (c : LoadCall) :
      main.Reachable extractor s → s.window.shouldClose = false →
      c ∈ (main.frame extractor errs s).loads →
      main.LoadCallMade extractor c

/-- Position and colour vectors of a state have pairwise equal lengths. -/
def MainState.Parallel (s : MainState) : Prop :=
  s.vertices.length = s.colours.length
  ∧ s.verticesControl.length = s.coloursControl.length
  ∧ s.verticesControlPoints.length = s.coloursControlPoints.length
  ∧ s.fontPoints.length = s.fontColors.length

/-- A load call passes as many positions as colours, passes that number
converted to `int` as the count, and the count is the element count recorded. -/
def LoadCall.Consistent (c : LoadCall) : Prop :=
  c.vertices.length = c.colours.length
  ∧ c.elementCount = narrowToInt c.vertices.length
  ∧ c.geometry.elementCount = c.elementCount

/-- A file system in which every shader source file holds the same text. -/
def linkFailure.fs : FileSystem := fun _ => some "void main()"

/-- A driver that compiles every stage, fails to link, names the program 5 and
raises no error flag. -/
def linkFailure.drv : ShaderDriver :=
  { glCreateShader := fun shaderType =>
      match shaderType with
      | GL_VERTEX_SHADER => 1
      | GL_FRAGMENT_SHADER => 2
      | GL_TESS_CONTROL_SHADER => 3
      | _ => 4
    compileStatus := fun _ _ => true
    shaderInfoLog := fun _ _ => ""
    glCreateProgram := 5
    linkStatus := fun _ => false
    programInfoLog := "link failed"
    errorFlags := [] }

/-! ## Tables and derived sequences used to state the properties -/

/-- The six characters of the word with the translation each letter is laid out
by, in character order: `-0.8, -0.5, -0.2, +0.1, +0.4, +0.65` horizontally and
`-0.1` vertically. -/
def wordLayout : List (Char × vec2) :=
  [('R', ⟨-0.8, -0.1⟩), ('o', ⟨-0.5, -0.1⟩), ('b', ⟨-0.2, -0.1⟩),
   ('e', ⟨0.1, -0.1⟩), ('r', ⟨0.4, -0.1⟩), ('t', ⟨0.65, -0.1⟩)]

/-- A letter laid out: its points as `extractLetter` gives them on empty
vectors, each point `p` replaced by `p/2` moved by the translation `t`. -/
def laidOut (extractor : GlyphExtractor) (fontString : String) (entry : Char × vec2) :
    List vec2 :=
  ((extractLetter extractor [] [] entry.1 fontString).1).map
    (fun p => ⟨p.x / 2 + entry.2.x, p.y / 2 + entry.2.y⟩)

/-- The control polygon of a sequence of 4-point patches as the specification
words it: per patch, the first and last control points once and the two
interior control points twice in a row. -/
def patchControlPolygon : List vec2 → List vec2
  | p0 :: p1 :: p2 :: p3 :: rest => [p0, p1, p1, p2, p2, p3] ++ patchControlPolygon rest
  | _ => []

/-- The first three control points of every 4-point patch of a sequence, in
order; the fourth point of each patch is left out. -/
def firstThreeOfPatches : List vec2 → List vec2
  | p0 :: p1 :: p2 :: _ :: rest => [p0, p1, p2] ++ firstThreeOfPatches rest
  | _ => []

/-- A chain of points written for pairwise line segments: the first and the last
point once, every point between them twice in a row. -/
def chainDoubled : List vec2 → List vec2
  | [] => []
  | [p] => [p]
  | p :: q :: rest => p :: (List.flatMap (q :: rest).dropLast (fun r => [r, r]))
      ++ [(q :: rest).getLast (List.cons_ne_nil q rest)]

/-- The literal table of filled control points in `mug` (lines 340-358). -/
def mugTable.filled : List vec2 :=
  [⟨1/3, 1/3⟩, ⟨2/3, -1/3⟩, ⟨0, -1/3⟩, ⟨0, 0⟩,
   ⟨0, -1/3⟩, ⟨-2/3, -1/3⟩, ⟨-1/3, 1/3⟩, ⟨0, 0⟩,
   ⟨-1/3, 1/3⟩, ⟨0, 1/3⟩, ⟨1/3, 1/3⟩, ⟨0, 0⟩,
   ⟨0.4, 0.5/3⟩, ⟨2.5/3, 1/3⟩, ⟨1.3/3, -0.4/3⟩, ⟨0, 0⟩]

/-- The literal table of control-polygon points in `mug` (lines 364-378), the
counted pushes written out. -/
def mugTable.controlPolygon : List vec2 :=
  [⟨1/3, 1/3⟩, ⟨2/3, -1/3⟩, ⟨2/3, -1/3⟩, ⟨0, -1/3⟩, ⟨0, -1/3⟩,
   ⟨0, -1/3⟩, ⟨0, -1/3⟩, ⟨-2/3, -1/3⟩, ⟨-2/3, -1/3⟩, ⟨-1/3, 1/3⟩, ⟨-1/3, 1/3⟩,
   ⟨-1/3, 1/3⟩, ⟨-1/3, 1/3⟩, ⟨0, 1/3⟩, ⟨0, 1/3⟩, ⟨1/3, 1/3⟩, ⟨1/3, 1/3⟩,
   ⟨0.4, 0.5/3⟩, ⟨0.4, 0.5/3⟩, ⟨2.5/3, 1/3⟩, ⟨2.5/3, 1/3⟩, ⟨1.3/3, -0.4/3⟩]

/-- The literal table of control-point markers in `mug` (lines 384-398). -/
def mugTable.controlPoints : List vec2 :=
  [⟨1/3, 1/3⟩, ⟨2/3, -1/3⟩, ⟨0, -1/3⟩,
   ⟨0, -1/3⟩, ⟨-2/3, -1/3⟩, ⟨-1/3, 1/3⟩,
   ⟨-1/3, 1/3⟩, ⟨0, 1/3⟩, ⟨1/3, 1/3⟩,
   ⟨0.4, 0.5/3⟩, ⟨2.5/3, 1/3⟩, ⟨1.3/3, -0.4/3⟩]

/-- The state after `k` consecutive iterations of the render loop in which
`glfwPollEvents` delivers no event; `errs j` supplies the error flags of
iteration `j`. -/
def main.frames (extractor : GlyphExtractor) (errs : ℕ → ℕ → List ℕ) :
    ℕ → MainState → MainState
  | 0, s => s
  | k + 1, s =>
    main.pollEvents [] (main.frame extractor (errs k) (main.frames extractor errs k s)).state

/-- Every segment of every glyph the font parser returns has degree 1, 2 or
3. -/
def GlyphExtractor.DegreesOneToThree (extractor : GlyphExtractor) : Prop :=
  ∀ (fontString : String) (letter : Char),
    ∀ contour ∈ (extractor fontString letter).contours,
      ∀ seg ∈ contour, seg.degree = 1 ∨ seg.degree = 2 ∨ seg.degree = 3

/-- The vectors drawn as patches hold a multiple of four points and the patch
size is four. -/
def MainState.Aligned (s : MainState) : Prop :=
  4 ∣ s.vertices.length ∧ 4 ∣ s.fontPoints.length ∧ s.patchSize = 4

/-! ## Concrete inputs -/

/-- A segment of degree `d` with control points `(k, 2k)`. -/
def sampleSegment (d : ℕ) : MySegment := ⟨fun k => k, fun k => 2 * k, d⟩

/-- A font parser that returns the same two-contour glyph for every character:
a cubic, then a line, a quadratic and a cubic. -/
def sampleExtractor : GlyphExtractor :=
  fun _ _ => ⟨[[sampleSegment 3], [sampleSegment 1, sampleSegment 2, sampleSegment 3]]⟩

/-- The state `main` enters the render loop with when the driver names the
objects 1 to 12 (the filled geometry gets buffers 1, 2 and vertex array 3), the
programs are 1, 2, 3 and no error is ever pending. -/
def sampleStart : MainState :=
  (main.setup ⟨false⟩ 1 2 3 (fun _ => 0) (fun k => (3 * k + 1, 3 * k + 2, 3 * k + 3))
    (fun _ => [])).state

/-- The state after the first frame run from `sampleStart`: the mug has been
generated once and `lastScene` equals `sceneId`. -/
def sampleSecond : MainState :=
  (main.frame sampleExtractor (fun _ => []) sampleStart).state

/-- The state at the head of frame 97,612,894 of the program when no key is ever
pressed: the mug has been generated 97,612,893 times over. -/
def overflowState : MainState :=
  main.frames sampleExtractor (fun _ _ => []) 97612893 sampleStart

/-- The first `LoadGeometry` call of the first frame run from `sampleStart`. -/
def sampleLoad : LoadCall :=
  ⟨(mug Destinations.empty).vertices, (mug Destinations.empty).colours, 16,
    { vertexBuffer := 1, textureBuffer := 0, colourBuffer := 2, vertexArray := 3,
      elementCount := 16 }⟩

/-! ## Lemmas on the push loops -/

/-- A loop that pushes one point and one colour per element appends the two
mapped lists. -/
lemma foldl_push_pair {ι α β : Type} (f : ι → α) (g : ι → β) (l : List ι)
    (acc : List α × List β) :
    l.foldl (fun a k => (a.1 ++ [f k], a.2 ++ [g k])) acc
      = (acc.1 ++ l.map f, acc.2 ++ l.map g) := by
  induction l generalizing acc with
  | nil => simp
  | cons k l ih => simp [ih]

/-- The segment body appends to both vectors; what it appends does not depend
on their contents. -/
lemma segment_eq (seg : MySegment) (acc : List vec2 × List vec3) :
    extractLetter.segment seg acc
      = (acc.1 ++ ((List.range seg.degree).map seg.point
                    ++ List.replicate (4 - seg.degree) (seg.point seg.degree)),
         acc.2 ++ List.replicate (seg.degree + (4 - seg.degree)) ⟨1, 0, 0⟩) := by
  unfold extractLetter.segment
  have h1 := foldl_push_pair (fun k => vec2.mk (seg.x k) (seg.y k))
    (fun _ => vec3.mk 1 0 0) (List.range seg.degree) acc
  have h2 := foldl_push_pair (fun _ : ℕ => vec2.mk (seg.x seg.degree) (seg.y seg.degree))
    (fun _ => vec3.mk 1 0 0) (List.range (4 - seg.degree))
    (acc.1 ++ (List.range seg.degree).map (fun k => vec2.mk (seg.x k) (seg.y k)),
     acc.2 ++ (List.range seg.degree).map (fun _ => vec3.mk 1 0 0))
  simp only [h1, h2]
  have hc : ∀ n : ℕ, (List.range n).map (fun _ => vec3.mk 1 0 0)
      = List.replicate n (vec3.mk 1 0 0) := by
    intro n
    induction n with
    | zero => rfl
    | succ n ih => rw [List.range_succ, List.map_append, ih, List.replicate_succ']; rfl
  have hp : ∀ n : ℕ, (List.range n).map
      (fun _ => vec2.mk (seg.x seg.degree) (seg.y seg.degree))
      = List.replicate n (seg.point seg.degree) := by
    intro n
    induction n with
    | zero => rfl
    | succ n ih => rw [List.range_succ, List.map_append, ih, List.replicate_succ']; rfl
  simp only [hc, hp, List.append_assoc]
  rw [List.append_replicate_replicate]
  rfl

/-- Running the segment body over a list of segments appends the emitted points
and colours. -/
lemma segments_foldl (segs : List MySegment) (acc : List vec2 × List vec3) :
    segs.foldl (fun a seg => extractLetter.segment seg a) acc
      = (acc.1 ++ emittedPoints segs, acc.2 ++ emittedColours segs) := by
  induction segs using List.reverseRecOn generalizing acc with
  | nil => simp [emittedPoints, emittedColours]
  | append_singleton segs seg ih =>
    simp only [emittedPoints, emittedColours, List.foldl_append, List.foldl_cons,
      List.foldl_nil]
    rw [ih acc, ih ([], [])]
    simp [segment_eq, emittedPoints, emittedColours]

/-- Emitted points of a concatenation. -/
lemma emittedPoints_append (a b : List MySegment) :
    emittedPoints (a ++ b) = emittedPoints a ++ emittedPoints b := by
  have h := segments_foldl b (a.foldl (fun a seg => extractLetter.segment seg a) ([], []))
  simp only [emittedPoints, List.foldl_append]
  rw [h]
  rfl

/-- Emitted colours of a concatenation. -/
lemma emittedColours_append (a b : List MySegment) :
    emittedColours (a ++ b) = emittedColours a ++ emittedColours b := by
  have h := segments_foldl b (a.foldl (fun a seg => extractLetter.segment seg a) ([], []))
  simp only [emittedColours, List.foldl_append]
  rw [h]
  rfl

/-- The function `extractLetter` appends the points and colours emitted for the
segments of the glyph, contour after contour. -/
lemma extractLetter_eq (extractor : GlyphExtractor) (rP : List vec2) (rC : List vec3)
    (letter : Char) (fontString : String) :
    extractLetter extractor rP rC letter fontString
      = (rP ++ emittedPoints (extractor fontString letter).contours.flatten,
         rC ++ emittedColours (extractor fontString letter).contours.flatten) := by
  have h := segments_foldl (extractor fontString letter).contours.flatten (rP, rC)
  rw [List.foldl_flatten] at h
  exact h

/-- Points emitted for one segment. -/
lemma emittedPoints_singleton (seg : MySegment) :
    emittedPoints [seg] = (List.range seg.degree).map seg.point
        ++ List.replicate (4 - seg.degree) (seg.point seg.degree) := by
  simp [emittedPoints, segment_eq]

/-- Colours emitted for one segment. -/
lemma emittedColours_singleton (seg : MySegment) :
    emittedColours [seg] = List.replicate (seg.degree + (4 - seg.degree)) ⟨1, 0, 0⟩ := by
  simp [emittedColours, segment_eq]

/-! ## Theorems -/

/-- C1: for a segment of degree `d` in 1, 2, 3 anywhere in the glyph,
`extractLetter` appends, between what it appends for the segments before and
after it, exactly four points, namely the control points `0..d` in order followed
by `3-d` further copies of control point `d`, and exactly four colours. -/
theorem extractLetter_pads_segment (extractor : GlyphExtractor) (rP : List vec2)
    (rC : List vec3) (letter : Char) (fontString : String)
    (cs1 cs2 : List MyContour) (c1 c2 : MyContour) (seg : MySegment)
    (hg : (extractor fontString letter).contours = cs1 ++ (c1 ++ seg :: c2) :: cs2)
    (hd : seg.degree = 1 ∨ seg.degree = 2 ∨ seg.degree = 3) :
    (extractLetter extractor rP rC letter fontString).1
        = rP ++ emittedPoints (cs1.flatten ++ c1)
          ++ ((List.range (seg.degree + 1)).map seg.point
              ++ List.replicate (3 - seg.degree) (seg.point seg.degree))
          ++ emittedPoints (c2 ++ cs2.flatten)
    ∧ ((List.range (seg.degree + 1)).map seg.point
        ++ List.replicate (3 - seg.degree) (seg.point seg.degree)).length = 4
    ∧ (extractLetter extractor rP rC letter fontString).2
        = rC ++ emittedColours (cs1.flatten ++ c1)
          ++ List.replicate 4 ⟨1, 0, 0⟩
          ++ emittedColours (c2 ++ cs2.flatten) := by
  have hflat : (extractor fontString letter).contours.flatten
      = (cs1.flatten ++ c1) ++ ([seg] ++ (c2 ++ cs2.flatten)) := by
    rw [hg]; simp
  rw [extractLetter_eq, hflat]
  simp only [emittedPoints_append, emittedColours_append, emittedPoints_singleton,
    emittedColours_singleton]
  rcases hd with h | h | h <;> rw [h] <;>
    simp [List.range_succ, List.replicate_succ, List.append_assoc]

/-! ## Lemmas on the render loop -/

/-- The scene selection changes the eight vectors as `main.generate` says. -/
lemma selectScene_sequences (extractor : GlyphExtractor) (errs : ℕ → List ℕ) (s : MainState) :
    (main.selectScene extractor errs s).state.sequences
      = main.generate extractor s.sceneId s.sequences := by
  unfold main.selectScene main.generate
  split_ifs <;> rfl

/-- The scene selection leaves `sceneId`, `lastScene` and the window alone. -/
lemma selectScene_control (extractor : GlyphExtractor) (errs : ℕ → List ℕ) (s : MainState) :
    (main.selectScene extractor errs s).state.sceneId = s.sceneId
    ∧ (main.selectScene extractor errs s).state.lastScene = s.lastScene
    ∧ (main.selectScene extractor errs s).state.window = s.window := by
  unfold main.selectScene
  split_ifs <;> exact ⟨rfl, rfl, rfl⟩

/-- On a scene change the eight vectors are emptied and `lastScene` follows
`sceneId`. -/
lemma clearOnChange_changed (s : MainState) (h : s.lastScene ≠ s.sceneId) :
    (main.clearOnChange s).1.sequences = (Destinations.empty, [], [])
    ∧ (main.clearOnChange s).1.lastScene = s.sceneId
    ∧ (main.clearOnChange s).1.sceneId = s.sceneId := by
  unfold main.clearOnChange
  rw [if_pos h]
  exact ⟨rfl, rfl, rfl⟩

/-- Without a scene change the block does nothing. -/
lemma clearOnChange_same (s : MainState) (h : s.lastScene = s.sceneId) :
    main.clearOnChange s = (s, []) := by
  unfold main.clearOnChange
  rw [if_neg (not_not.mpr h)]

/-- State of a frame in terms of its two blocks. -/
lemma frame_state (extractor : GlyphExtractor) (errs : ℕ → List ℕ) (s : MainState) :
    (main.frame extractor errs s).state
      = (main.selectScene extractor errs (main.clearOnChange s).1).state := rfl

/-- A frame that sees a scene change regenerates the vectors from empty. -/
lemma frame_changed (extractor : GlyphExtractor) (errs : ℕ → List ℕ) (s : MainState)
    (h : s.lastScene ≠ s.sceneId) :
    (main.frame extractor errs s).state.sequences
        = main.generate extractor s.sceneId (Destinations.empty, [], [])
    ∧ (main.frame extractor errs s).state.lastScene = s.sceneId
    ∧ (main.frame extractor errs s).state.sceneId = s.sceneId := by
  obtain ⟨h1, h2, h3⟩ := clearOnChange_changed s h
  obtain ⟨k1, k2, k3⟩ := selectScene_control extractor errs (main.clearOnChange s).1
  rw [frame_state, selectScene_sequences, h1, h3, k1, k2, h2, h3]
  exact ⟨rfl, rfl, rfl⟩

/-- C1 at the quadratic segment of the sample glyph: the points `(0,0)`, `(1,2)`,
`(2,4)` are followed by one further copy of `(2,4)`. -/
theorem extractLetter_pads_segment_witness :
    (sampleExtractor "Lora-Regular.ttf" 'R').contours
        = [[sampleSegment 3]] ++ ([sampleSegment 1] ++ sampleSegment 2 :: [sampleSegment 3]) :: []
    ∧ ((sampleSegment 2).degree = 1 ∨ (sampleSegment 2).degree = 2
        ∨ (sampleSegment 2).degree = 3)
    ∧ ((extractLetter sampleExtractor [] [] 'R' "Lora-Regular.ttf").1
        = [] ++ emittedPoints ([[sampleSegment 3]].flatten ++ [sampleSegment 1])
          ++ ((List.range ((sampleSegment 2).degree + 1)).map (sampleSegment 2).point
              ++ List.replicate (3 - (sampleSegment 2).degree)
                  ((sampleSegment 2).point (sampleSegment 2).degree))
          ++ emittedPoints ([sampleSegment 3] ++ ([] : List MyContour).flatten)
      ∧ ((List.range ((sampleSegment 2).degree + 1)).map (sampleSegment 2).point
          ++ List.replicate (3 - (sampleSegment 2).degree)
              ((sampleSegment 2).point (sampleSegment 2).degree)).length = 4
      ∧ (extractLetter sampleExtractor [] [] 'R' "Lora-Regular.ttf").2
        = [] ++ emittedColours ([[sampleSegment 3]].flatten ++ [sampleSegment 1])
          ++ List.replicate 4 ⟨1, 0, 0⟩
          ++ emittedColours ([sampleSegment 3] ++ ([] : List MyContour).flatten)) :=
  ⟨rfl, Or.inr (Or.inl rfl),
   extractLetter_pads_segment sampleExtractor [] [] 'R' "Lora-Regular.ttf"
     [[sampleSegment 3]] [] [sampleSegment 1] [sampleSegment 3] (sampleSegment 2) rfl
     (Or.inr (Or.inl rfl))⟩

/-- C2: after the render-loop frame in which the selected scene changes to mug
(the vectors are cleared, then `mug` runs), the filled, control-polygon and
control-point position vectors are the literal tables of `mug`, of lengths 16
(four patches of four points), 22 and 12. -/
theorem frame_selecting_mug (extractor : GlyphExtractor) (errs : ℕ → List ℕ) (s : MainState)
    (hchange : s.lastScene ≠ s.sceneId) (hmug : s.sceneId = 0) :
    (main.frame extractor errs s).state.vertices
        = [⟨1/3, 1/3⟩, ⟨2/3, -1/3⟩, ⟨0, -1/3⟩, ⟨0, 0⟩,
           ⟨0, -1/3⟩, ⟨-2/3, -1/3⟩, ⟨-1/3, 1/3⟩, ⟨0, 0⟩,
           ⟨-1/3, 1/3⟩, ⟨0, 1/3⟩, ⟨1/3, 1/3⟩, ⟨0, 0⟩,
           ⟨0.4, 0.5/3⟩, ⟨2.5/3, 1/3⟩, ⟨1.3/3, -0.4/3⟩, ⟨0, 0⟩]
    ∧ (main.frame extractor errs s).state.vertices.length = 16
    ∧ (main.frame extractor errs s).state.verticesControl
        = [⟨1/3, 1/3⟩, ⟨2/3, -1/3⟩, ⟨2/3, -1/3⟩, ⟨0, -1/3⟩, ⟨0, -1/3⟩,
           ⟨0, -1/3⟩, ⟨0, -1/3⟩, ⟨-2/3, -1/3⟩, ⟨-2/3, -1/3⟩, ⟨-1/3, 1/3⟩, ⟨-1/3, 1/3⟩,
           ⟨-1/3, 1/3⟩, ⟨-1/3, 1/3⟩, ⟨0, 1/3⟩, ⟨0, 1/3⟩, ⟨1/3, 1/3⟩, ⟨1/3, 1/3⟩,
           ⟨0.4, 0.5/3⟩, ⟨0.4, 0.5/3⟩, ⟨2.5/3, 1/3⟩, ⟨2.5/3, 1/3⟩, ⟨1.3/3, -0.4/3⟩]
    ∧ (main.frame extractor errs s).state.verticesControl.length = 22
    ∧ (main.frame extractor errs s).state.verticesControlPoints
        = [⟨1/3, 1/3⟩, ⟨2/3, -1/3⟩, ⟨0, -1/3⟩,
           ⟨0, -1/3⟩, ⟨-2/3, -1/3⟩, ⟨-1/3, 1/3⟩,
           ⟨-1/3, 1/3⟩, ⟨0, 1/3⟩, ⟨1/3, 1/3⟩,
           ⟨0.4, 0.5/3⟩, ⟨2.5/3, 1/3⟩, ⟨1.3/3, -0.4/3⟩]
    ∧ (main.frame extractor errs s).state.verticesControlPoints.length = 12 := by
  have hq := (frame_changed extractor errs s hchange).1
  rw [hmug] at hq
  have hs : (main.frame extractor errs s).state.toDestinations = mug Destinations.empty :=
    congrArg Prod.fst hq
  have hv : (main.frame extractor errs s).state.vertices = (mug Destinations.empty).vertices :=
    congrArg Destinations.vertices hs
  have hc : (main.frame extractor errs s).state.verticesControl
      = (mug Destinations.empty).verticesControl :=
    congrArg Destinations.verticesControl hs
  have hp : (main.frame extractor errs s).state.verticesControlPoints
      = (mug Destinations.empty).verticesControlPoints :=
    congrArg Destinations.verticesControlPoints hs
  rw [hv, hc, hp]
  refine ⟨rfl, rfl, rfl, rfl, rfl, rfl⟩

/-- C2 at the first frame of the program: `lastScene` is -1 and `sceneId` is 0. -/
theorem frame_selecting_mug_witness :
    sampleStart.lastScene ≠ sampleStart.sceneId ∧ sampleStart.sceneId = 0
    ∧ (main.frame sampleExtractor (fun _ => []) sampleStart).state.vertices.length = 16
    ∧ (main.frame sampleExtractor (fun _ => []) sampleStart).state.verticesControl.length = 22
    ∧ (main.frame sampleExtractor (fun _ => []) sampleStart).state.verticesControlPoints.length
        = 12 :=
  have h := frame_selecting_mug sampleExtractor (fun _ => []) sampleStart (by decide) rfl
  ⟨by decide, rfl, h.2.1, h.2.2.2.1, h.2.2.2.2.2⟩

/-- C3: whatever the six destination vectors held before, after `fish` the
filled vector and the control-polygon vector have exactly 20 points and each
of the three colour vectors has 20 entries. -/
theorem fish_lengths (d : Destinations) :
    (fish d).vertices.length = 20 ∧ (fish d).verticesControl.length = 20
    ∧ (fish d).colours.length = 20 ∧ (fish d).coloursControl.length = 20
    ∧ (fish d).coloursControlPoints.length = 20 := by
  simp [fish, fish.points, clear, List.range_succ]

/-- C4: `mug` appends to its destinations instead of overwriting them: called on
the vectors its own first call produced, it leaves 32, 44 and 24 points where a
call on empty vectors leaves 16, 22 and 12, so the two results differ; `fish`
does overwrite, its result never depends on the prior contents. -/
theorem mug_appends_fish_overwrites :
    (mug (mug Destinations.empty)).vertices.length = 32
    ∧ (mug (mug Destinations.empty)).verticesControl.length = 44
    ∧ (mug (mug Destinations.empty)).verticesControlPoints.length = 24
    ∧ (mug Destinations.empty).vertices.length = 16
    ∧ (mug Destinations.empty).verticesControl.length = 22
    ∧ (mug Destinations.empty).verticesControlPoints.length = 12
    ∧ mug (mug Destinations.empty) ≠ mug Destinations.empty
    ∧ (∀ d : Destinations, (mug d).vertices = d.vertices ++ (mug Destinations.empty).vertices)
    ∧ (∀ d : Destinations, fish d = fish Destinations.empty) := by
  refine ⟨rfl, rfl, rfl, rfl, rfl, rfl, ?_, fun d => rfl, fun d => rfl⟩
  intro h
  have hl := congrArg (fun d => d.vertices.length) h
  revert hl
  show ¬ ((mug (mug Destinations.empty)).vertices.length
    = (mug Destinations.empty).vertices.length)
  decide

/-- A frame run on empty vectors generates the selected scene from empty,
whether or not it sees a scene change. -/
lemma frame_from_empty (extractor : GlyphExtractor) (errs : ℕ → List ℕ) (s : MainState)
    (he : s.sequences = (Destinations.empty, [], [])) :
    (main.frame extractor errs s).state.sequences
        = main.generate extractor s.sceneId (Destinations.empty, [], [])
    ∧ (main.frame extractor errs s).state.lastScene = s.sceneId := by
  by_cases h : s.lastScene = s.sceneId
  · obtain ⟨_, k2, _⟩ := selectScene_control extractor errs s
    rw [frame_state, clearOnChange_same s h, selectScene_sequences, he, k2]
    exact ⟨rfl, h⟩
  · exact ⟨(frame_changed extractor errs s h).1, (frame_changed extractor errs s h).2.1⟩

/-- C5: scene switch idempotence.  From the state `main` enters the render loop
with, a frame with scene `X` selected, then a frame with a different scene `Y`
selected, then a frame with `X` selected again leave the eight point and colour
vectors exactly as they were after the first frame (the glyph extractor being a
function of font and character). -/
theorem scene_switch_idempotent (extractor : GlyphExtractor) (window : GLFWwindow)
    (program program2 program3 : ℕ) (textureBuffer : ℕ → ℕ) (names : ℕ → ℕ × ℕ × ℕ)
    (errs0 errs1 errs2 errs3 : ℕ → List ℕ) (X Y : ℤ) (hXY : X ≠ Y) :
    (main.frameWith extractor errs3 X
      (main.frameWith extractor errs2 Y
        (main.frameWith extractor errs1 X
          (main.setup window program program2 program3 textureBuffer names errs0).state))).sequences
    = (main.frameWith extractor errs1 X
        (main.setup window program program2 program3 textureBuffer names errs0).state).sequences := by
  set init := (main.setup window program program2 program3 textureBuffer names errs0).state
    with hinit
  have h1 := frame_from_empty extractor errs1 { init with sceneId := X } rfl
  have h2 := frame_changed extractor errs2
    { main.frameWith extractor errs1 X init with sceneId := Y }
    (by
      show (main.frame extractor errs1 { init with sceneId := X }).state.lastScene ≠ Y
      rw [h1.2]; exact hXY)
  have h3 := frame_changed extractor errs3
    { main.frameWith extractor errs2 Y (main.frameWith extractor errs1 X init) with sceneId := X }
    (by
      show (main.frame extractor errs2
        { main.frameWith extractor errs1 X init with sceneId := Y }).state.lastScene ≠ X
      rw [h2.2.1]; exact fun h => hXY h.symm)
  show (main.frame extractor errs3 _).state.sequences = (main.frame extractor errs1 _).state.sequences
  rw [h3.1, h1.1]

/-- C5 at mug, fish, mug from the sample start state. -/
theorem scene_switch_idempotent_witness :
    (0 : ℤ) ≠ 1
    ∧ (main.frameWith sampleExtractor (fun _ => []) 0
        (main.frameWith sampleExtractor (fun _ => []) 1
          (main.frameWith sampleExtractor (fun _ => []) 0
            (main.setup ⟨false⟩ 1 2 3 (fun _ => 0) (fun k => (3 * k + 1, 3 * k + 2, 3 * k + 3))
              (fun _ => [])).state))).sequences
      = (main.frameWith sampleExtractor (fun _ => []) 0
          (main.setup ⟨false⟩ 1 2 3 (fun _ => 0) (fun k => (3 * k + 1, 3 * k + 2, 3 * k + 3))
            (fun _ => [])).state).sequences :=
  ⟨by decide,
   scene_switch_idempotent sampleExtractor ⟨false⟩ 1 2 3 (fun _ => 0)
     (fun k => (3 * k + 1, 3 * k + 2, 3 * k + 3)) (fun _ => []) (fun _ => []) (fun _ => [])
     (fun _ => []) 0 1 (by decide)⟩

/-- A pending error seen by the loop with `error` already set stays reported. -/
lemma CheckGLErrors_loop_true (flags : List ℕ) : CheckGLErrors.loop flags true = true := by
  induction flags with
  | nil => rfl
  | cons flag rest ih =>
    unfold CheckGLErrors.loop
    split_ifs
    · rfl
    · exact ih

/-- The error check reports an error exactly when the first flag it reads is not
`GL_NO_ERROR`. -/
lemma CheckGLErrors_iff (flags : List ℕ) :
    CheckGLErrors flags = true ↔ ∃ flag rest, flags = flag :: rest ∧ flag ≠ GL_NO_ERROR := by
  cases flags with
  | nil => simp [CheckGLErrors, CheckGLErrors.loop]
  | cons flag rest =>
    by_cases h : flag = GL_NO_ERROR
    · simp [CheckGLErrors, CheckGLErrors.loop, h]
    · simp [CheckGLErrors, CheckGLErrors.loop, h, CheckGLErrors_loop_true]

/-- C6: after `LoadGeometry(g, P, C, n)` the element count of the geometry is `n`
and its buffer and vertex-array names are those of `g`; a following `RenderScene`
with type 0, 1 or 2 issues exactly one draw call, of the primitive of that type,
starting at vertex 0 with count `n`. -/
theorem LoadGeometry_then_RenderScene (g : Geometry) (P : List vec2) (C : List vec3) (n : ℤ)
    (flags : List ℕ) (program : ℕ) (type : ℤ) (ht : type = 0 ∨ type = 1 ∨ type = 2) :
    (LoadGeometry g P C n flags).geometry.elementCount = n
    ∧ (LoadGeometry g P C n flags).geometry.vertexBuffer = g.vertexBuffer
    ∧ (LoadGeometry g P C n flags).geometry.colourBuffer = g.colourBuffer
    ∧ (LoadGeometry g P C n flags).geometry.vertexArray = g.vertexArray
    ∧ drawCalls (RenderScene (LoadGeometry g P C n flags).geometry program type)
        = [.glDrawArrays
            (if type = 0 then GL_PATCHES else if type = 1 then GL_LINE_STRIP else GL_POINTS)
            0 n] := by
  refine ⟨rfl, rfl, rfl, rfl, ?_⟩
  rcases ht with h | h | h <;> subst h <;> simp [RenderScene, drawCalls, LoadGeometry]

/-- C6 at one vertex drawn as a line strip. -/
theorem LoadGeometry_then_RenderScene_witness :
    ((1 : ℤ) = 0 ∨ (1 : ℤ) = 1 ∨ (1 : ℤ) = 2)
    ∧ (LoadGeometry sampleStart.geometry [⟨0, 0⟩] [⟨1, 0, 0⟩] 1 []).geometry.elementCount = 1
    ∧ drawCalls (RenderScene (LoadGeometry sampleStart.geometry [⟨0, 0⟩] [⟨1, 0, 0⟩] 1 []).geometry
        2 1) = [.glDrawArrays GL_LINE_STRIP 0 1] :=
  have h := LoadGeometry_then_RenderScene sampleStart.geometry [⟨0, 0⟩] [⟨1, 0, 0⟩] 1 [] 2 1
    (Or.inr (Or.inl rfl))
  ⟨Or.inr (Or.inl rfl), h.1, h.2.2.2.2⟩

/-- C7, counterexample: on an initialised geometry, with two positions, one
colour and count 1, and no driver error pending, `LoadGeometry` reports success
and records the count. -/
theorem LoadGeometry_accepts_mismatch :
    ([⟨0, 0⟩, ⟨1, 1⟩] : List vec2).length ≠ ([⟨1, 0, 0⟩] : List vec3).length
    ∧ (LoadGeometry sampleStart.geometry [⟨0, 0⟩, ⟨1, 1⟩] [⟨1, 0, 0⟩] 1 []).ok = true
    ∧ (LoadGeometry sampleStart.geometry [⟨0, 0⟩, ⟨1, 1⟩] [⟨1, 0, 0⟩] 1 []).geometry.elementCount
        = 1 := by
  refine ⟨by decide, rfl, rfl⟩

/-- C7, amended: `LoadGeometry` does not look at the lengths of its inputs.  For
all positions, colours and count it records the count as the element count, and
it reports failure exactly when the driver has an error flag pending. -/
theorem LoadGeometry_unchecked (g : Geometry) (P : List vec2) (C : List vec3) (n : ℤ)
    (flags : List ℕ) :
    (LoadGeometry g P C n flags).geometry.elementCount = n
    ∧ ((LoadGeometry g P C n flags).ok = false
        ↔ ∃ flag rest, flags = flag :: rest ∧ flag ≠ GL_NO_ERROR) := by
  refine ⟨rfl, ?_⟩
  rw [← CheckGLErrors_iff]
  simp [LoadGeometry]

/-! ## The conversion of a size to `int` -/

/-- Below `2^31` the conversion to `int` is the identity. -/
lemma narrowToInt_of_lt (n : ℕ) (h : n < 2147483648) : narrowToInt n = (n : ℤ) := by
  unfold narrowToInt
  omega

/-- The conversion to `int` changes a value by a multiple of `2^32`, so it keeps
divisibility by four. -/
lemma narrowToInt_dvd (n : ℕ) (h : 4 ∣ n) : (4 : ℤ) ∣ narrowToInt n := by
  unfold narrowToInt
  omega

/-! ## The parallel-array invariant -/

/-- A placement loop of `extractFont` appends one point and one colour per
letter point. -/
lemma place_eq (letterPoints : List vec2) (offset : vec2) (acc : List vec2 × List vec3) :
    extractFont.place letterPoints offset acc
      = (acc.1 ++ letterPoints.map (fun p => p / (2 : ℚ) - offset),
         acc.2 ++ letterPoints.map (fun _ => vec3.mk 1 0 0)) :=
  foldl_push_pair (fun p => p / (2 : ℚ) - offset) (fun _ => vec3.mk 1 0 0) letterPoints acc

/-- A placement loop keeps points and colours equally long. -/
lemma place_length (letterPoints : List vec2) (offset : vec2) (acc : List vec2 × List vec3)
    (h : acc.1.length = acc.2.length) :
    (extractFont.place letterPoints offset acc).1.length
      = (extractFont.place letterPoints offset acc).2.length := by
  rw [place_eq]
  simp [h]

/-- The function `extractFont` keeps points and colours equally long. -/
lemma extractFont_length (extractor : GlyphExtractor) (fontPoints : List vec2)
    (fontColors : List vec3) (fontString : String)
    (h : fontPoints.length = fontColors.length) :
    (extractFont extractor fontPoints fontColors fontString).1.length
      = (extractFont extractor fontPoints fontColors fontString).2.length := by
  unfold extractFont
  exact place_length _ _ _ (place_length _ _ _ (place_length _ _ _
    (place_length _ _ _ (place_length _ _ _ (place_length _ _ _ h)))))

/-- The loads of a shape branch are consistent when the vectors are parallel. -/
lemma drawShape_loads (s : MainState) (errs : ℕ → List ℕ) (hp : s.Parallel) :
    ∀ c ∈ (main.drawShape s errs).loads, c.Consistent := by
  obtain ⟨h1, h2, h3, _⟩ := hp
  intro c hc
  simp only [main.drawShape, List.mem_cons, List.mem_singleton, List.not_mem_nil,
    or_false] at hc
  rcases hc with rfl | rfl | rfl
  · exact ⟨h1, rfl, rfl⟩
  · exact ⟨h2, rfl, rfl⟩
  · exact ⟨h3, rfl, rfl⟩

/-- A shape branch does not touch the vectors. -/
lemma drawShape_parallel (s : MainState) (errs : ℕ → List ℕ) (hp : s.Parallel) :
    (main.drawShape s errs).state.Parallel := hp

/-- The load of a font branch is consistent when the vectors are parallel. -/
lemma drawFont_loads (extractor : GlyphExtractor) (s : MainState) (fontString : String)
    (errs : ℕ → List ℕ) (hp : s.Parallel) :
    ∀ c ∈ (main.drawFont extractor s fontString errs).loads, c.Consistent := by
  intro c hc
  simp only [main.drawFont, List.mem_singleton] at hc
  subst hc
  exact ⟨extractFont_length extractor _ _ fontString hp.2.2.2, rfl, rfl⟩

/-- A font branch keeps the vectors parallel. -/
lemma drawFont_parallel (extractor : GlyphExtractor) (s : MainState) (fontString : String)
    (errs : ℕ → List ℕ) (hp : s.Parallel) :
    (main.drawFont extractor s fontString errs).state.Parallel :=
  ⟨hp.1, hp.2.1, hp.2.2.1, extractFont_length extractor _ _ fontString hp.2.2.2⟩

/-- The function `mug` keeps the vectors parallel. -/
lemma mug_parallel (s : MainState) (hp : s.Parallel) :
    ({ s with toDestinations := mug s.toDestinations } : MainState).Parallel := by
  obtain ⟨h1, h2, h3, h4⟩ := hp
  refine ⟨?_, ?_, ?_, h4⟩
  · simp [mug, h1]
  · simp [mug, h2]
  · simp [mug, h3, List.range_succ]

/-- The function `fish` leaves the vectors parallel. -/
lemma fish_parallel (s : MainState) (hp : s.Parallel) :
    ({ s with toDestinations := fish s.toDestinations } : MainState).Parallel := by
  refine ⟨?_, ?_, ?_, hp.2.2.2⟩
  · simp [fish, fish.points, clear]
  · simp [fish, fish.points, clear]
  · simp [fish, fish.points, clear, List.range_succ]

/-- The scene selection makes consistent loads and keeps the vectors parallel. -/
lemma selectScene_parallel (extractor : GlyphExtractor) (errs : ℕ → List ℕ) (s : MainState)
    (hp : s.Parallel) :
    (∀ c ∈ (main.selectScene extractor errs s).loads, c.Consistent)
    ∧ (main.selectScene extractor errs s).state.Parallel := by
  unfold main.selectScene
  split_ifs
  · exact ⟨drawShape_loads _ errs (mug_parallel s hp),
      drawShape_parallel _ errs (mug_parallel s hp)⟩
  · exact ⟨drawShape_loads _ errs (fish_parallel s hp),
      drawShape_parallel _ errs (fish_parallel s hp)⟩
  · exact ⟨drawFont_loads extractor s _ errs hp, drawFont_parallel extractor s _ errs hp⟩
  · exact ⟨drawFont_loads extractor s _ errs hp, drawFont_parallel extractor s _ errs hp⟩
  · exact ⟨drawFont_loads extractor s _ errs hp, drawFont_parallel extractor s _ errs hp⟩
  · exact ⟨fun c hc => absurd hc (List.not_mem_nil c), hp⟩

/-- The scene-change block keeps the vectors parallel. -/
lemma clearOnChange_parallel (s : MainState) (hp : s.Parallel) :
    (main.clearOnChange s).1.Parallel := by
  unfold main.clearOnChange
  split_ifs
  · exact ⟨rfl, rfl, rfl, rfl⟩
  · exact hp

/-- A frame makes consistent loads and keeps the vectors parallel. -/
lemma frame_parallel (extractor : GlyphExtractor) (errs : ℕ → List ℕ) (s : MainState)
    (hp : s.Parallel) :
    (∀ c ∈ (main.frame extractor errs s).loads, c.Consistent)
    ∧ (main.frame extractor errs s).state.Parallel :=
  selectScene_parallel extractor errs (main.clearOnChange s).1 (clearOnChange_parallel s hp)

/-- Polling events does not touch the vectors. -/
lemma pollEvents_parallel (events : List Event) (s : MainState) (hp : s.Parallel) :
    (main.pollEvents events s).Parallel := by
  unfold main.pollEvents
  induction events generalizing s with
  | nil => exact hp
  | cons e events ih =>
    rw [List.foldl_cons]
    apply ih
    cases e <;> exact hp

/-- The loads of the set-up are consistent: every vector is empty. -/
lemma setup_loads (window : GLFWwindow) (program program2 program3 : ℕ)
    (textureBuffer : ℕ → ℕ) (names : ℕ → ℕ × ℕ × ℕ) (errs : ℕ → List ℕ) :
    ∀ c ∈ (main.setup window program program2 program3 textureBuffer names errs).loads,
      c.Consistent := by
  intro c hc
  simp only [main.setup, List.mem_cons, List.mem_singleton, List.not_mem_nil,
    or_false] at hc
  rcases hc with rfl | rfl | rfl | rfl <;> exact ⟨rfl, rfl, rfl⟩

/-- Every state at the head of the render loop has parallel vectors. -/
lemma reachable_parallel (extractor : GlyphExtractor) (s : MainState)
    (hr : main.Reachable extractor s) : s.Parallel := by
  induction hr with
  | start window program program2 program3 textureBuffer names errs =>
    exact ⟨rfl, rfl, rfl, rfl⟩
  | step s errs events _ _ ih =>
    exact pollEvents_parallel events _ (frame_parallel extractor errs s ih).2

/-- C8, amended: at every `LoadGeometry` call `main` makes, in the set-up and in
every iteration run from a reachable state, for any key presses and any number
of frames, the position vector and the colour vector passed have the same
length, the count passed is that length converted to `int`, and the count is
what the geometry records as its element count; while the length is below
`2^31` the count passed is the length itself. -/
theorem main_loads_parallel (extractor : GlyphExtractor) (c : LoadCall)
    (hc : main.LoadCallMade extractor c) :
    c.vertices.length = c.colours.length
    ∧ c.elementCount = narrowToInt c.vertices.length
    ∧ c.geometry.elementCount = c.elementCount
    ∧ (c.vertices.length < 2147483648 → c.elementCount = (c.vertices.length : ℤ)) := by
  have h : c.Consistent := by
    cases hc with
    | setup window program program2 program3 textureBuffer names errs c hmem =>
      exact setup_loads window program program2 program3 textureBuffer names errs c hmem
    | frame s errs c hr _ hmem =>
      exact (frame_parallel extractor errs s (reachable_parallel extractor s hr)).1 c hmem
  obtain ⟨h1, h2, h3⟩ := h
  exact ⟨h1, h2, h3, fun hlt => h2.trans (narrowToInt_of_lt _ hlt)⟩

/-- C8 amended, at the first load of the first frame: sixteen positions, sixteen
colours, count 16. -/
theorem main_loads_parallel_witness :
    main.LoadCallMade sampleExtractor sampleLoad
    ∧ sampleLoad.vertices.length = sampleLoad.colours.length
    ∧ sampleLoad.elementCount = narrowToInt sampleLoad.vertices.length
    ∧ sampleLoad.geometry.elementCount = sampleLoad.elementCount
    ∧ (sampleLoad.vertices.length < 2147483648
        → sampleLoad.elementCount = (sampleLoad.vertices.length : ℤ)) :=
  have hmade : main.LoadCallMade sampleExtractor sampleLoad :=
    main.LoadCallMade.frame sampleStart (fun _ => []) sampleLoad
      (main.Reachable.start ⟨false⟩ 1 2 3 (fun _ => 0)
        (fun k => (3 * k + 1, 3 * k + 2, 3 * k + 3)) (fun _ => []))
      rfl (List.mem_cons_self _ _)
  ⟨hmade, main_loads_parallel sampleExtractor sampleLoad hmade⟩

/-- C9, evaluated at a failing link: all four source files are present, every
stage compiles, the link fails and no error flag is pending.  The function
`InitializeShaders` prints the link error and returns the non-zero program
name 5, and `main` goes on to the render loop instead of returning. -/
theorem InitializeShaders_link_failure :
    InitializeShaders linkFailure.fs linkFailure.drv
        = (5, ["ERROR linking shader program:", "link failed"])
    ∧ (InitializeShaders linkFailure.fs linkFailure.drv).1 ≠ 0
    ∧ main.startup true (some ⟨false⟩) true linkFailure.fs
        linkFailure.drv linkFailure.drv linkFailure.drv
        = .ok (⟨false⟩, 5, 5, 5) := by
  refine ⟨by rfl, by decide, by rfl⟩

/-- C10: on a press, `KeyCallback` sets the selected scene to 0 for B, 1 for N,
2 for F, 3 for G and 4 for H; for every other key, and for every action that is
not a press, the selected scene is unchanged; a press of Escape requests the
window to close and leaves the selected scene unchanged. -/
theorem KeyCallback_scene (window : GLFWwindow) (sceneId scancode mods : ℤ) :
    (KeyCallback window sceneId GLFW_KEY_B scancode GLFW_PRESS mods).2 = 0
    ∧ (KeyCallback window sceneId GLFW_KEY_N scancode GLFW_PRESS mods).2 = 1
    ∧ (KeyCallback window sceneId GLFW_KEY_F scancode GLFW_PRESS mods).2 = 2
    ∧ (KeyCallback window sceneId GLFW_KEY_G scancode GLFW_PRESS mods).2 = 3
    ∧ (KeyCallback window sceneId GLFW_KEY_H scancode GLFW_PRESS mods).2 = 4
    ∧ (∀ key action : ℤ, key ≠ GLFW_KEY_B → key ≠ GLFW_KEY_N → key ≠ GLFW_KEY_F →
        key ≠ GLFW_KEY_G → key ≠ GLFW_KEY_H →
        (KeyCallback window sceneId key scancode action mods).2 = sceneId)
    ∧ (∀ key action : ℤ, action ≠ GLFW_PRESS →
        (KeyCallback window sceneId key scancode action mods).2 = sceneId)
    ∧ (KeyCallback window sceneId GLFW_KEY_ESCAPE scancode GLFW_PRESS mods).1.shouldClose = true
    ∧ (KeyCallback window sceneId GLFW_KEY_ESCAPE scancode GLFW_PRESS mods).2 = sceneId := by
  refine ⟨rfl, rfl, rfl, rfl, rfl, ?_, ?_, rfl, rfl⟩
  · intro key action hB hN hF hG hH
    simp [KeyCallback, hB, hN, hF, hG, hH]
  · intro key action ha
    simp [KeyCallback, ha]

/-- C10 at concrete events with scene 3 selected: a press of A (65) and a release
of B leave the scene at 3, a press of B selects 0, a press of Escape closes the
window and leaves the scene at 3. -/
theorem KeyCallback_scene_witness :
    (65 : ℤ) ≠ GLFW_KEY_B ∧ (0 : ℤ) ≠ GLFW_PRESS
    ∧ (KeyCallback ⟨false⟩ 3 65 0 GLFW_PRESS 0).2 = 3
    ∧ (KeyCallback ⟨false⟩ 3 GLFW_KEY_B 0 0 0).2 = 3
    ∧ (KeyCallback ⟨false⟩ 3 GLFW_KEY_B 0 GLFW_PRESS 0).2 = 0
    ∧ (KeyCallback ⟨false⟩ 3 GLFW_KEY_ESCAPE 0 GLFW_PRESS 0).1.shouldClose = true
    ∧ (KeyCallback ⟨false⟩ 3 GLFW_KEY_ESCAPE 0 GLFW_PRESS 0).2 = 3 :=
  have h := KeyCallback_scene ⟨false⟩ 3 0 0
  ⟨by decide, by decide,
   h.2.2.2.2.2.1 65 GLFW_PRESS (by decide) (by decide) (by decide) (by decide) (by decide),
   h.2.2.2.2.2.2.1 GLFW_KEY_B 0 (by decide), h.1, h.2.2.2.2.2.2.2.1, h.2.2.2.2.2.2.2.2⟩

/-! ## The word layout -/

/-- A placement loop moves every halved point by the negated offset. -/
lemma place_translate (letterPoints : List vec2) (offset t : vec2)
    (acc : List vec2 × List vec3) (hx : t.x = -offset.x) (hy : t.y = -offset.y) :
    extractFont.place letterPoints offset acc
      = (acc.1 ++ letterPoints.map (fun p => ⟨p.x / 2 + t.x, p.y / 2 + t.y⟩),
         acc.2 ++ List.replicate letterPoints.length ⟨1, 0, 0⟩) := by
  rw [place_eq]
  have h1 : (fun p : vec2 => p / (2 : ℚ) - offset)
      = (fun p : vec2 => (⟨p.x / 2 + t.x, p.y / 2 + t.y⟩ : vec2)) := by
    funext p
    show vec2.mk (p.x / 2 - offset.x) (p.y / 2 - offset.y) = _
    rw [hx, hy, sub_eq_add_neg, sub_eq_add_neg]
  have h2 : letterPoints.map (fun _ => vec3.mk 1 0 0)
      = List.replicate letterPoints.length ⟨1, 0, 0⟩ := by
    induction letterPoints with
    | nil => rfl
    | cons p l ih => simp [List.replicate_succ, ih]
  rw [h1, h2]

/-- C11: for every font, `extractFont` appends the points of the characters
R, o, b, e, r, t in that order, each point `p` of a letter replaced by `p/2`
moved by that letter's translation, and one colour `(1,0,0)` per point; the
horizontal translations are `-0.8, -0.5, -0.2, 0.1, 0.4, 0.65`, strictly
increasing in character order and pairwise distinct, and the vertical
translation is `-0.1` for all six. -/
theorem extractFont_word_layout (extractor : GlyphExtractor) (fontPoints : List vec2)
    (fontColors : List vec3) (fontString : String) :
    (extractFont extractor fontPoints fontColors fontString).1
        = fontPoints ++ wordLayout.flatMap (laidOut extractor fontString)
    ∧ (extractFont extractor fontPoints fontColors fontString).2
        = fontColors
          ++ List.replicate (wordLayout.flatMap (laidOut extractor fontString)).length ⟨1, 0, 0⟩
    ∧ wordLayout.map Prod.fst = ['R', 'o', 'b', 'e', 'r', 't']
    ∧ wordLayout.map (fun e => e.2.x) = [-0.8, -0.5, -0.2, 0.1, 0.4, 0.65]
    ∧ List.Pairwise (fun a b : ℚ => a < b) (wordLayout.map (fun e => e.2.x))
    ∧ List.Pairwise (fun a b : ℚ => a ≠ b) (wordLayout.map (fun e => e.2.x))
    ∧ ∀ e ∈ wordLayout, e.2.y = -0.1 := by
  have hplace : extractFont extractor fontPoints fontColors fontString
      = (fontPoints ++ wordLayout.flatMap (laidOut extractor fontString),
         fontColors ++ List.replicate
           (wordLayout.flatMap (laidOut extractor fontString)).length ⟨1, 0, 0⟩) := by
    unfold extractFont
    simp only []
    rw [place_translate _ ⟨0.8, 0.1⟩ ⟨-0.8, -0.1⟩ _ rfl rfl,
      place_translate _ ⟨0.5, 0.1⟩ ⟨-0.5, -0.1⟩ _ rfl rfl,
      place_translate _ ⟨0.2, 0.1⟩ ⟨-0.2, -0.1⟩ _ rfl rfl,
      place_translate _ ⟨-0.1, 0.1⟩ ⟨0.1, -0.1⟩ _ (by norm_num) rfl,
      place_translate _ ⟨-0.4, 0.1⟩ ⟨0.4, -0.1⟩ _ (by norm_num) rfl,
      place_translate _ ⟨-0.65, 0.1⟩ ⟨0.65, -0.1⟩ _ (by norm_num) rfl]
    simp [wordLayout, laidOut, List.flatMap, List.append_assoc,
      List.append_replicate_replicate, add_assoc]
  have hlt : List.Pairwise (fun a b : ℚ => a < b) (wordLayout.map (fun e => e.2.x)) := by
    simp only [wordLayout, List.map, List.pairwise_cons, List.mem_cons, List.mem_singleton,
      List.not_mem_nil, List.Pairwise.nil, and_true, forall_eq_or_imp, forall_eq,
      IsEmpty.forall_iff, implies_true]
    norm_num
  refine ⟨congrArg Prod.fst hplace, congrArg Prod.snd hplace, rfl, rfl, hlt,
    hlt.imp (fun h => ne_of_lt h), ?_⟩
  intro e he
  simp only [wordLayout, List.mem_cons, List.mem_singleton, List.not_mem_nil, or_false] at he
  rcases he with rfl | rfl | rfl | rfl | rfl | rfl <;> rfl

/-! ## What a frame regenerates and draws -/

/-- C12, counterexample: the second frame of the program sees no scene change
(`lastScene` and `sceneId` are both 0), yet the vectors after it differ from
the vectors before it: `mug` has run again and the filled vector has 32 points
instead of 16. -/
theorem frame_without_change_regenerates :
    sampleSecond.lastScene = sampleSecond.sceneId
    ∧ (main.frame sampleExtractor (fun _ => []) sampleSecond).state.sequences
        ≠ sampleSecond.sequences
    ∧ sampleSecond.vertices.length = 16
    ∧ (main.frame sampleExtractor (fun _ => []) sampleSecond).state.vertices.length = 32 := by
  refine ⟨rfl, ?_, rfl, rfl⟩
  intro h
  have hl := congrArg (fun q : Destinations × List vec2 × List vec3 => q.1.vertices.length) h
  revert hl
  show ¬ ((main.frame sampleExtractor (fun _ => []) sampleSecond).state.vertices.length
    = sampleSecond.vertices.length)
  decide

/-- Draw calls of a concatenated trace. -/
lemma drawCalls_append (a b : List GLCall) : drawCalls (a ++ b) = drawCalls a ++ drawCalls b := by
  simp [drawCalls]

/-- The function `LoadGeometry` draws nothing. -/
lemma drawCalls_LoadGeometry (g : Geometry) (P : List vec2) (C : List vec3) (n : ℤ)
    (flags : List ℕ) : drawCalls (LoadGeometry g P C n flags).calls = [] := by
  simp [drawCalls, LoadGeometry]

/-- The scene-change block draws nothing and leaves `sceneId` and the programs
alone. -/
lemma clearOnChange_calls (s : MainState) :
    drawCalls (main.clearOnChange s).2 = []
    ∧ (main.clearOnChange s).1.sceneId = s.sceneId := by
  unfold main.clearOnChange
  split_ifs
  · exact ⟨by simp [drawCalls], rfl⟩
  · exact ⟨rfl, rfl⟩

/-- Trace of a frame in terms of its two blocks. -/
lemma frame_calls (extractor : GlyphExtractor) (errs : ℕ → List ℕ) (s : MainState) :
    (main.frame extractor errs s).calls
      = [GLCall.glUseProgram s.program] ++ (main.clearOnChange s).2
        ++ (main.selectScene extractor errs (main.clearOnChange s).1).calls := rfl

/-- A shape branch ends with the three `RenderScene` calls and draws the three
vectors in full. -/
lemma drawShape_draws (t : MainState) (errs : ℕ → List ℕ) :
    (∃ pre, drawCalls pre = []
      ∧ (main.drawShape t errs).calls
          = pre ++ RenderScene (main.drawShape t errs).state.geometry
                    (main.drawShape t errs).state.program 0
              ++ RenderScene (main.drawShape t errs).state.geometryControl
                    (main.drawShape t errs).state.program2 1
              ++ RenderScene (main.drawShape t errs).state.geometryControlPoints
                    (main.drawShape t errs).state.program3 2)
    ∧ drawCalls (main.drawShape t errs).calls
        = [.glDrawArrays GL_PATCHES 0 (narrowToInt (main.drawShape t errs).state.vertices.length),
           .glDrawArrays GL_LINE_STRIP 0 (narrowToInt (main.drawShape t errs).state.verticesControl.length),
           .glDrawArrays GL_POINTS 0
             (narrowToInt (main.drawShape t errs).state.verticesControlPoints.length)] := by
  constructor
  · refine ⟨(LoadGeometry t.geometry t.vertices t.colours
          (narrowToInt t.vertices.length) (errs 0)).calls
        ++ [.glPatchParameteri GL_PATCH_VERTICES 4]
        ++ (LoadGeometry t.geometryControl t.verticesControl t.coloursControl
              (narrowToInt t.verticesControl.length) (errs 1)).calls
        ++ (LoadGeometry t.geometryControlPoints t.verticesControlPoints
              t.coloursControlPoints
              (narrowToInt t.verticesControlPoints.length) (errs 2)).calls, ?_, ?_⟩
    · rfl
    · rfl
  · rfl

/-- A font branch ends with one `RenderScene` call and draws the glyph vector
in full. -/
lemma drawFont_draws (extractor : GlyphExtractor) (t : MainState) (fontString : String)
    (errs : ℕ → List ℕ) :
    (∃ pre, drawCalls pre = []
      ∧ (main.drawFont extractor t fontString errs).calls
          = pre ++ RenderScene (main.drawFont extractor t fontString errs).state.geometryGlyph
                    (main.drawFont extractor t fontString errs).state.program 0)
    ∧ drawCalls (main.drawFont extractor t fontString errs).calls
        = [.glDrawArrays GL_PATCHES 0
            (narrowToInt (main.drawFont extractor t fontString errs).state.fontPoints.length)] := by
  constructor
  · refine ⟨(LoadGeometry t.geometryGlyph
        (extractFont extractor t.fontPoints t.fontColors fontString).1
        (extractFont extractor t.fontPoints t.fontColors fontString).2
        (narrowToInt (extractFont extractor t.fontPoints t.fontColors fontString).1.length)
        (errs 0)).calls,
        ?_, ?_⟩
    · rfl
    · rfl
  · rfl

/-- The head of a frame's trace, before the scene selection, draws nothing. -/
lemma frame_head_draws (s : MainState) :
    drawCalls ([GLCall.glUseProgram s.program] ++ (main.clearOnChange s).2) = [] := by
  rw [drawCalls_append, (clearOnChange_calls s).1]
  simp [drawCalls]

/-- Draw calls of a frame, by scene: three for a shape scene, one for a font
scene. -/
lemma frame_draws (extractor : GlyphExtractor) (errs : ℕ → List ℕ) (s : MainState) :
    ((s.sceneId = 0 ∨ s.sceneId = 1) →
      drawCalls (main.frame extractor errs s).calls
        = [.glDrawArrays GL_PATCHES 0 (narrowToInt (main.frame extractor errs s).state.vertices.length),
           .glDrawArrays GL_LINE_STRIP 0
             (narrowToInt (main.frame extractor errs s).state.verticesControl.length),
           .glDrawArrays GL_POINTS 0
             (narrowToInt (main.frame extractor errs s).state.verticesControlPoints.length)]
      ∧ ∃ pre, drawCalls pre = []
        ∧ (main.frame extractor errs s).calls
            = pre ++ RenderScene (main.frame extractor errs s).state.geometry
                      (main.frame extractor errs s).state.program 0
                ++ RenderScene (main.frame extractor errs s).state.geometryControl
                      (main.frame extractor errs s).state.program2 1
                ++ RenderScene (main.frame extractor errs s).state.geometryControlPoints
                      (main.frame extractor errs s).state.program3 2)
    ∧ ((s.sceneId = 2 ∨ s.sceneId = 3 ∨ s.sceneId = 4) →
      drawCalls (main.frame extractor errs s).calls
        = [.glDrawArrays GL_PATCHES 0 (narrowToInt (main.frame extractor errs s).state.fontPoints.length)]
      ∧ ∃ pre, drawCalls pre = []
        ∧ (main.frame extractor errs s).calls
            = pre ++ RenderScene (main.frame extractor errs s).state.geometryGlyph
                      (main.frame extractor errs s).state.program 0) := by
  have hid := (clearOnChange_calls s).2
  have hhead := frame_head_draws s
  constructor
  · intro h
    have hsel : ∃ t, main.selectScene extractor errs (main.clearOnChange s).1
        = main.drawShape t errs := by
      unfold main.selectScene
      rcases h with h | h
      · rw [if_pos (hid.trans h)]; exact ⟨_, rfl⟩
      · rw [if_neg (by rw [hid, h]; decide), if_pos (hid.trans h)]; exact ⟨_, rfl⟩
    obtain ⟨t, ht⟩ := hsel
    obtain ⟨⟨pre, hpre, hcalls⟩, hdraw⟩ := drawShape_draws t errs
    rw [frame_calls, frame_state, ht, drawCalls_append, hhead, List.nil_append]
    refine ⟨hdraw, [GLCall.glUseProgram s.program] ++ (main.clearOnChange s).2 ++ pre, ?_, ?_⟩
    · rw [drawCalls_append, hhead, hpre]; rfl
    · rw [hcalls]; simp only [List.append_assoc]
  · intro h
    have hsel : ∃ fontString, main.selectScene extractor errs (main.clearOnChange s).1
        = main.drawFont extractor (main.clearOnChange s).1 fontString errs := by
      unfold main.selectScene
      rcases h with h | h | h
      · rw [if_neg (by rw [hid, h]; decide), if_neg (by rw [hid, h]; decide),
          if_pos (hid.trans h)]
        exact ⟨_, rfl⟩
      · rw [if_neg (by rw [hid, h]; decide), if_neg (by rw [hid, h]; decide),
          if_neg (by rw [hid, h]; decide), if_pos (hid.trans h)]
        exact ⟨_, rfl⟩
      · rw [if_neg (by rw [hid, h]; decide), if_neg (by rw [hid, h]; decide),
          if_neg (by rw [hid, h]; decide), if_neg (by rw [hid, h]; decide),
          if_pos (hid.trans h)]
        exact ⟨_, rfl⟩
    obtain ⟨fontString, ht⟩ := hsel
    obtain ⟨⟨pre, hpre, hcalls⟩, hdraw⟩ :=
      drawFont_draws extractor (main.clearOnChange s).1 fontString errs
    rw [frame_calls, frame_state, ht, drawCalls_append, hhead, List.nil_append]
    refine ⟨hdraw, [GLCall.glUseProgram s.program] ++ (main.clearOnChange s).2 ++ pre, ?_, ?_⟩
    · rw [drawCalls_append, hhead, hpre]; rfl
    · rw [hcalls]; simp only [List.append_assoc]

/-- C13: per frame, for a shape scene (id 0 or 1) the loop issues exactly three
draw calls, in order: the filled geometry as patches, the control polygon as a
line strip, the control points as points, each over its whole vector, and the
trace ends with the three `RenderScene` calls on these geometries; for a font
scene (id 2, 3 or 4) it issues exactly one draw call, the glyph geometry as
patches. -/
theorem frame_draw_calls (extractor : GlyphExtractor) (errs : ℕ → List ℕ) (s : MainState) :
    ((s.sceneId = 0 ∨ s.sceneId = 1) →
      drawCalls (main.frame extractor errs s).calls
        = [.glDrawArrays GL_PATCHES 0 (narrowToInt (main.frame extractor errs s).state.vertices.length),
           .glDrawArrays GL_LINE_STRIP 0
             (narrowToInt (main.frame extractor errs s).state.verticesControl.length),
           .glDrawArrays GL_POINTS 0
             (narrowToInt (main.frame extractor errs s).state.verticesControlPoints.length)]
      ∧ ∃ pre, drawCalls pre = []
        ∧ (main.frame extractor errs s).calls
            = pre ++ RenderScene (main.frame extractor errs s).state.geometry
                      (main.frame extractor errs s).state.program 0
                ++ RenderScene (main.frame extractor errs s).state.geometryControl
                      (main.frame extractor errs s).state.program2 1
                ++ RenderScene (main.frame extractor errs s).state.geometryControlPoints
                      (main.frame extractor errs s).state.program3 2)
    ∧ ((s.sceneId = 2 ∨ s.sceneId = 3 ∨ s.sceneId = 4) →
      drawCalls (main.frame extractor errs s).calls
        = [.glDrawArrays GL_PATCHES 0 (narrowToInt (main.frame extractor errs s).state.fontPoints.length)]
      ∧ ∃ pre, drawCalls pre = []
        ∧ (main.frame extractor errs s).calls
            = pre ++ RenderScene (main.frame extractor errs s).state.geometryGlyph
                      (main.frame extractor errs s).state.program 0) :=
  frame_draws extractor errs s

/-- C13 at the first frame of the program (scene 0): three draw calls, over the
filled vector, the control polygon and the control points. -/
theorem frame_draw_calls_witness :
    (sampleStart.sceneId = 0 ∨ sampleStart.sceneId = 1)
    ∧ drawCalls (main.frame sampleExtractor (fun _ => []) sampleStart).calls
        = [.glDrawArrays GL_PATCHES 0
             (main.frame sampleExtractor (fun _ => []) sampleStart).state.vertices.length,
           .glDrawArrays GL_LINE_STRIP 0
             (main.frame sampleExtractor (fun _ => []) sampleStart).state.verticesControl.length,
           .glDrawArrays GL_POINTS 0
             (narrowToInt (main.frame sampleExtractor (fun _ => [])
               sampleStart).state.verticesControlPoints.length)] :=
  ⟨Or.inl rfl,
   ((frame_draw_calls sampleExtractor (fun _ => []) sampleStart).1 (Or.inl rfl)).1⟩

/-! ## What a frame uploads -/

/-- Uploads of a concatenated trace. -/
lemma uploads_append (a b : List GLCall) : uploads (a ++ b) = uploads a ++ uploads b := by
  simp [uploads]

/-- The head of a frame's trace, before the scene selection, uploads nothing. -/
lemma frame_head_uploads (s : MainState) :
    uploads ([GLCall.glUseProgram s.program] ++ (main.clearOnChange s).2) = [] := by
  unfold main.clearOnChange
  split_ifs <;> rfl

/-- With scene 0 or 1 selected the scene selection takes a shape branch. -/
lemma selectScene_shape (extractor : GlyphExtractor) (errs : ℕ → List ℕ) (t : MainState)
    (h : t.sceneId = 0 ∨ t.sceneId = 1) :
    ∃ u, main.selectScene extractor errs t = main.drawShape u errs := by
  unfold main.selectScene
  rcases h with h | h
  · rw [if_pos h]; exact ⟨_, rfl⟩
  · rw [if_neg (by rw [h]; decide), if_pos h]; exact ⟨_, rfl⟩

/-- With scene 2, 3 or 4 selected the scene selection takes a font branch. -/
lemma selectScene_font (extractor : GlyphExtractor) (errs : ℕ → List ℕ) (t : MainState)
    (h : t.sceneId = 2 ∨ t.sceneId = 3 ∨ t.sceneId = 4) :
    ∃ fontString, main.selectScene extractor errs t
      = main.drawFont extractor t fontString errs := by
  unfold main.selectScene
  rcases h with h | h | h
  · rw [if_neg (by rw [h]; decide), if_neg (by rw [h]; decide), if_pos h]
    exact ⟨_, rfl⟩
  · rw [if_neg (by rw [h]; decide), if_neg (by rw [h]; decide),
      if_neg (by rw [h]; decide), if_pos h]
    exact ⟨_, rfl⟩
  · rw [if_neg (by rw [h]; decide), if_neg (by rw [h]; decide),
      if_neg (by rw [h]; decide), if_neg (by rw [h]; decide), if_pos h]
    exact ⟨_, rfl⟩

/-- A frame with a shape scene selected uploads the three pairs of vectors it
leaves, each with the byte size of its narrowed count, records the three counts
in the geometries, and makes the three corresponding `LoadGeometry` calls. -/
lemma frame_shape_uploads (extractor : GlyphExtractor) (errs : ℕ → List ℕ) (s : MainState)
    (h : s.sceneId = 0 ∨ s.sceneId = 1) :
    uploads (main.frame extractor errs s).calls
      = [.glBufferData GL_ARRAY_BUFFER
            (8 * narrowToInt (main.frame extractor errs s).state.vertices.length)
            (.positions (main.frame extractor errs s).state.vertices) GL_STATIC_DRAW,
         .glBufferData GL_ARRAY_BUFFER
            (12 * narrowToInt (main.frame extractor errs s).state.vertices.length)
            (.colours (main.frame extractor errs s).state.colours) GL_STATIC_DRAW,
         .glBufferData GL_ARRAY_BUFFER
            (8 * narrowToInt (main.frame extractor errs s).state.verticesControl.length)
            (.positions (main.frame extractor errs s).state.verticesControl) GL_STATIC_DRAW,
         .glBufferData GL_ARRAY_BUFFER
            (12 * narrowToInt (main.frame extractor errs s).state.verticesControl.length)
            (.colours (main.frame extractor errs s).state.coloursControl) GL_STATIC_DRAW,
         .glBufferData GL_ARRAY_BUFFER
            (8 * narrowToInt (main.frame extractor errs s).state.verticesControlPoints.length)
            (.positions (main.frame extractor errs s).state.verticesControlPoints)
            GL_STATIC_DRAW,
         .glBufferData GL_ARRAY_BUFFER
            (12 * narrowToInt (main.frame extractor errs s).state.verticesControlPoints.length)
            (.colours (main.frame extractor errs s).state.coloursControlPoints)
            GL_STATIC_DRAW]
    ∧ (main.frame extractor errs s).state.geometry.elementCount
        = narrowToInt (main.frame extractor errs s).state.vertices.length
    ∧ (main.frame extractor errs s).state.geometryControl.elementCount
        = narrowToInt (main.frame extractor errs s).state.verticesControl.length
    ∧ (main.frame extractor errs s).state.geometryControlPoints.elementCount
        = narrowToInt (main.frame extractor errs s).state.verticesControlPoints.length
    ∧ (main.frame extractor errs s).loads
        = [⟨(main.frame extractor errs s).state.vertices,
            (main.frame extractor errs s).state.colours,
            narrowToInt (main.frame extractor errs s).state.vertices.length,
            (main.frame extractor errs s).state.geometry⟩,
           ⟨(main.frame extractor errs s).state.verticesControl,
            (main.frame extractor errs s).state.coloursControl,
            narrowToInt (main.frame extractor errs s).state.verticesControl.length,
            (main.frame extractor errs s).state.geometryControl⟩,
           ⟨(main.frame extractor errs s).state.verticesControlPoints,
            (main.frame extractor errs s).state.coloursControlPoints,
            narrowToInt (main.frame extractor errs s).state.verticesControlPoints.length,
            (main.frame extractor errs s).state.geometryControlPoints⟩] := by
  obtain ⟨u, hu⟩ := selectScene_shape extractor errs (main.clearOnChange s).1
    (by rw [(clearOnChange_calls s).2]; exact h)
  have hloads : (main.frame extractor errs s).loads
      = (main.selectScene extractor errs (main.clearOnChange s).1).loads := rfl
  rw [frame_calls, uploads_append, frame_head_uploads, List.nil_append, hloads, frame_state, hu]
  exact ⟨rfl, rfl, rfl, rfl, rfl⟩

/-- A frame with a font scene selected uploads the glyph points and colours it
leaves, with the byte size of the narrowed count, and records the count. -/
lemma frame_font_uploads (extractor : GlyphExtractor) (errs : ℕ → List ℕ) (s : MainState)
    (h : s.sceneId = 2 ∨ s.sceneId = 3 ∨ s.sceneId = 4) :
    uploads (main.frame extractor errs s).calls
      = [.glBufferData GL_ARRAY_BUFFER
            (8 * narrowToInt (main.frame extractor errs s).state.fontPoints.length)
            (.positions (main.frame extractor errs s).state.fontPoints) GL_STATIC_DRAW,
         .glBufferData GL_ARRAY_BUFFER
            (12 * narrowToInt (main.frame extractor errs s).state.fontPoints.length)
            (.colours (main.frame extractor errs s).state.fontColors) GL_STATIC_DRAW]
    ∧ (main.frame extractor errs s).state.geometryGlyph.elementCount
        = narrowToInt (main.frame extractor errs s).state.fontPoints.length := by
  obtain ⟨fontString, hf⟩ := selectScene_font extractor errs (main.clearOnChange s).1
    (by rw [(clearOnChange_calls s).2]; exact h)
  rw [frame_calls, uploads_append, frame_head_uploads, List.nil_append, frame_state, hf]
  exact ⟨rfl, rfl⟩

/-- C12, amended: the scene's generator or glyph adapter runs in every frame,
followed by the re-upload and the draw.  In a frame where the observed scene id
equals the id rendered last, the vectors are not cleared, the generator of the
selected scene runs on them as they are, and `lastScene` stays; in a frame
where it differs, the vectors are cleared, the generator runs on the empty
vectors, and `lastScene` becomes the new id.  In either case, with a shape scene
(0 or 1) selected the frame uploads the three position vectors and the three
colour vectors it leaves and draws the three geometries; with a font scene
(2, 3 or 4) selected it uploads the glyph points and colours it leaves and draws
the glyph geometry. -/
theorem frame_regenerates_every_frame (extractor : GlyphExtractor) (errs : ℕ → List ℕ)
    (s : MainState) :
    (s.lastScene = s.sceneId →
      (main.frame extractor errs s).state.sequences
          = main.generate extractor s.sceneId s.sequences
      ∧ (main.frame extractor errs s).state.lastScene = s.lastScene)
    ∧ (s.lastScene ≠ s.sceneId →
      (main.frame extractor errs s).state.sequences
          = main.generate extractor s.sceneId (Destinations.empty, [], [])
      ∧ (main.frame extractor errs s).state.lastScene = s.sceneId)
    ∧ ((s.sceneId = 0 ∨ s.sceneId = 1) →
      uploads (main.frame extractor errs s).calls
        = [.glBufferData GL_ARRAY_BUFFER
              (8 * narrowToInt (main.frame extractor errs s).state.vertices.length)
              (.positions (main.frame extractor errs s).state.vertices) GL_STATIC_DRAW,
           .glBufferData GL_ARRAY_BUFFER
              (12 * narrowToInt (main.frame extractor errs s).state.vertices.length)
              (.colours (main.frame extractor errs s).state.colours) GL_STATIC_DRAW,
           .glBufferData GL_ARRAY_BUFFER
              (8 * narrowToInt (main.frame extractor errs s).state.verticesControl.length)
              (.positions (main.frame extractor errs s).state.verticesControl) GL_STATIC_DRAW,
           .glBufferData GL_ARRAY_BUFFER
              (12 * narrowToInt (main.frame extractor errs s).state.verticesControl.length)
              (.colours (main.frame extractor errs s).state.coloursControl) GL_STATIC_DRAW,
           .glBufferData GL_ARRAY_BUFFER
              (8 * narrowToInt (main.frame extractor errs s).state.verticesControlPoints.length)
              (.positions (main.frame extractor errs s).state.verticesControlPoints)
              GL_STATIC_DRAW,
           .glBufferData GL_ARRAY_BUFFER
              (12 * narrowToInt (main.frame extractor errs s).state.verticesControlPoints.length)
              (.colours (main.frame extractor errs s).state.coloursControlPoints)
              GL_STATIC_DRAW]
      ∧ drawCalls (main.frame extractor errs s).calls
        = [.glDrawArrays GL_PATCHES 0
             (narrowToInt (main.frame extractor errs s).state.vertices.length),
           .glDrawArrays GL_LINE_STRIP 0
             (narrowToInt (main.frame extractor errs s).state.verticesControl.length),
           .glDrawArrays GL_POINTS 0
             (narrowToInt (main.frame extractor errs s).state.verticesControlPoints.length)])
    ∧ ((s.sceneId = 2 ∨ s.sceneId = 3 ∨ s.sceneId = 4) →
      uploads (main.frame extractor errs s).calls
        = [.glBufferData GL_ARRAY_BUFFER
              (8 * narrowToInt (main.frame extractor errs s).state.fontPoints.length)
              (.positions (main.frame extractor errs s).state.fontPoints) GL_STATIC_DRAW,
           .glBufferData GL_ARRAY_BUFFER
              (12 * narrowToInt (main.frame extractor errs s).state.fontPoints.length)
              (.colours (main.frame extractor errs s).state.fontColors) GL_STATIC_DRAW]
      ∧ drawCalls (main.frame extractor errs s).calls
        = [.glDrawArrays GL_PATCHES 0
             (narrowToInt (main.frame extractor errs s).state.fontPoints.length)]) := by
  refine ⟨?_, ?_, ?_, ?_⟩
  · intro h
    obtain ⟨_, k2, _⟩ := selectScene_control extractor errs s
    rw [frame_state, clearOnChange_same s h, selectScene_sequences, k2]
    exact ⟨rfl, rfl⟩
  · intro h
    exact ⟨(frame_changed extractor errs s h).1, (frame_changed extractor errs s h).2.1⟩
  · intro h
    exact ⟨(frame_shape_uploads extractor errs s h).1, ((frame_draws extractor errs s).1 h).1⟩
  · intro h
    exact ⟨(frame_font_uploads extractor errs s h).1, ((frame_draws extractor errs s).2 h).1⟩

/-- C12 amended, at the first two frames of the program: the first sees a scene
change and generates the mug from empty vectors, the second sees none and runs
`mug` on the vectors of the first, and then draws the three geometries. -/
theorem frame_regenerates_every_frame_witness :
    sampleStart.lastScene ≠ sampleStart.sceneId
    ∧ sampleSecond.lastScene = sampleSecond.sceneId
    ∧ (sampleSecond.sceneId = 0 ∨ sampleSecond.sceneId = 1)
    ∧ (main.frame sampleExtractor (fun _ => []) sampleStart).state.sequences
        = main.generate sampleExtractor sampleStart.sceneId (Destinations.empty, [], [])
    ∧ (main.frame sampleExtractor (fun _ => []) sampleSecond).state.sequences
        = main.generate sampleExtractor sampleSecond.sceneId sampleSecond.sequences
    ∧ drawCalls (main.frame sampleExtractor (fun _ => []) sampleSecond).calls
        = [.glDrawArrays GL_PATCHES 0
             (narrowToInt (main.frame sampleExtractor (fun _ => [])
               sampleSecond).state.vertices.length),
           .glDrawArrays GL_LINE_STRIP 0
             (narrowToInt (main.frame sampleExtractor (fun _ => [])
               sampleSecond).state.verticesControl.length),
           .glDrawArrays GL_POINTS 0
             (narrowToInt (main.frame sampleExtractor (fun _ => [])
               sampleSecond).state.verticesControlPoints.length)] :=
  ⟨by decide, rfl, Or.inl rfl,
   ((frame_regenerates_every_frame sampleExtractor (fun _ => []) sampleStart).2.1
      (by decide)).1,
   ((frame_regenerates_every_frame sampleExtractor (fun _ => []) sampleSecond).1 rfl).1,
   ((frame_regenerates_every_frame sampleExtractor (fun _ => []) sampleSecond).2.2.1
      (Or.inl rfl)).2⟩

/-! ## The overlay tables -/

/-- C14, counterexample: neither control polygon is the patch-by-patch
derivation from the filled control points.  That derivation has 24 points for
the mug and 30 for the fish; the vectors `mug` and `fish` produce have 22 and
20. -/
theorem control_polygon_not_per_patch :
    (mug Destinations.empty).verticesControl
        ≠ patchControlPolygon (mug Destinations.empty).vertices
    ∧ (fish Destinations.empty).verticesControl
        ≠ patchControlPolygon (fish Destinations.empty).vertices
    ∧ (patchControlPolygon (mug Destinations.empty).vertices).length = 24
    ∧ (mug Destinations.empty).verticesControl.length = 22
    ∧ (patchControlPolygon (fish Destinations.empty).vertices).length = 30
    ∧ (fish Destinations.empty).verticesControl.length = 20 := by
  have h1 : (patchControlPolygon (mug Destinations.empty).vertices).length = 24 := rfl
  have h2 : (mug Destinations.empty).verticesControl.length = 22 := rfl
  have h3 : (patchControlPolygon (fish Destinations.empty).vertices).length = 30 := by
    simp [fish, fish.points, clear, patchControlPolygon]
  have h4 : (fish Destinations.empty).verticesControl.length = 20 := by
    simp [fish, fish.points, clear]
  refine ⟨?_, ?_, h1, h2, h3, h4⟩
  · intro h
    have hl := congrArg List.length h
    rw [h1, h2] at hl
    exact absurd hl (by decide)
  · intro h
    have hl := congrArg List.length h
    rw [h3, h4] at hl
    exact absurd hl (by decide)

/-- C14, amended: for `mug` on empty destinations the control polygon is the
chain of the first three control points of each filled patch, in patch order
(the fourth point of every patch is left out), the first and the last point of
the chain once and every point between them twice in a row; for `fish` on
empty destinations the control polygon is the filled vector verbatim. -/
theorem control_polygon_tables :
    (mug Destinations.empty).verticesControl
        = chainDoubled (firstThreeOfPatches (mug Destinations.empty).vertices)
    ∧ (fish Destinations.empty).verticesControl = (fish Destinations.empty).vertices := by
  refine ⟨rfl, rfl⟩

/-- C15, counterexample: for `mug` on empty destinations the control-point
vector has 12 points and the filled vector 16, so they are not equal. -/
theorem mug_control_points_not_verbatim :
    (mug Destinations.empty).verticesControlPoints ≠ (mug Destinations.empty).vertices
    ∧ (mug Destinations.empty).verticesControlPoints.length = 12
    ∧ (mug Destinations.empty).vertices.length = 16 := by
  refine ⟨?_, rfl, rfl⟩
  intro h
  have hl := congrArg List.length h
  revert hl
  show ¬ ((mug Destinations.empty).verticesControlPoints.length
    = (mug Destinations.empty).vertices.length)
  decide

/-- C15, amended: for `fish` on empty destinations the control-point vector is
the filled vector verbatim and the colours are, per patch, `(1,0,0)` for the two
endpoints and `(1,1,1)` for the two interior points; for `mug` on empty
destinations the control-point vector holds the first three control points of
each filled patch (the fourth is left out) and the colours are, per patch,
`(1,0,0)` for the first and third point and `(1,1,1)` for the second; the two
colours differ. -/
theorem control_point_tables :
    (fish Destinations.empty).verticesControlPoints = (fish Destinations.empty).vertices
    ∧ (fish Destinations.empty).coloursControlPoints
        = (List.replicate 5 [⟨1, 0, 0⟩, ⟨1, 1, 1⟩, ⟨1, 1, 1⟩, ⟨1, 0, 0⟩]).flatten
    ∧ (mug Destinations.empty).verticesControlPoints
        = firstThreeOfPatches (mug Destinations.empty).vertices
    ∧ (mug Destinations.empty).coloursControlPoints
        = (List.replicate 4 [⟨1, 0, 0⟩, ⟨1, 1, 1⟩, ⟨1, 0, 0⟩]).flatten
    ∧ (⟨1, 0, 0⟩ : vec3) ≠ ⟨1, 1, 1⟩ := by
  refine ⟨rfl, rfl, rfl, rfl, ?_⟩
  intro h
  have hy := congrArg vec3.y h
  revert hy
  show ¬ ((0 : ℚ) = 1)
  norm_num

/-! ## Consecutive mug frames -/

/-- After a frame `lastScene` equals `sceneId`, and `sceneId` is as before. -/
lemma frame_scene (extractor : GlyphExtractor) (errs : ℕ → List ℕ) (s : MainState) :
    (main.frame extractor errs s).state.sceneId = s.sceneId
    ∧ (main.frame extractor errs s).state.lastScene = s.sceneId := by
  obtain ⟨k1, k2, _⟩ := selectScene_control extractor errs (main.clearOnChange s).1
  rw [frame_state, k1, k2]
  refine ⟨(clearOnChange_calls s).2, ?_⟩
  by_cases h : s.lastScene = s.sceneId
  · rw [clearOnChange_same s h]; exact h
  · exact (clearOnChange_changed s h).2.1

/-- The function `mug` appends its three position tables. -/
lemma mug_tables (d : Destinations) :
    (mug d).vertices = d.vertices ++ mugTable.filled
    ∧ (mug d).verticesControl = d.verticesControl ++ mugTable.controlPolygon
    ∧ (mug d).verticesControlPoints = d.verticesControlPoints ++ mugTable.controlPoints := by
  refine ⟨rfl, ?_, rfl⟩
  simp [mug, mugTable.controlPolygon, List.replicate]

/-- Length of a `k`-fold repetition. -/
lemma length_flatten_replicate {α : Type} (k : ℕ) (t : List α) :
    ((List.replicate k t).flatten).length = k * t.length := by
  induction k with
  | zero => simp
  | succ k ih => rw [List.replicate_succ, List.flatten_cons, List.length_append, ih]; ring

/-- One more repetition at the end. -/
lemma flatten_replicate_succ {α : Type} (k : ℕ) (t : List α) :
    (List.replicate (k + 1) t).flatten = (List.replicate k t).flatten ++ t := by
  rw [List.replicate_succ', List.flatten_append]
  simp

/-- A frame with the mug selected on a state whose `lastScene` is already the
mug appends the three tables. -/
lemma frame_mug_same (extractor : GlyphExtractor) (errs : ℕ → List ℕ) (s : MainState)
    (hs : s.sceneId = 0) (hl : s.lastScene = s.sceneId) :
    (main.frame extractor errs s).state.vertices = s.vertices ++ mugTable.filled
    ∧ (main.frame extractor errs s).state.verticesControl
        = s.verticesControl ++ mugTable.controlPolygon
    ∧ (main.frame extractor errs s).state.verticesControlPoints
        = s.verticesControlPoints ++ mugTable.controlPoints := by
  have hq : (main.frame extractor errs s).state.sequences
      = main.generate extractor s.sceneId s.sequences := by
    rw [frame_state, clearOnChange_same s hl, selectScene_sequences]
  rw [hs] at hq
  have hd : (main.frame extractor errs s).state.toDestinations = mug s.toDestinations :=
    congrArg Prod.fst hq
  obtain ⟨m1, m2, m3⟩ := mug_tables s.toDestinations
  exact ⟨(congrArg Destinations.vertices hd).trans m1,
    (congrArg Destinations.verticesControl hd).trans m2,
    (congrArg Destinations.verticesControlPoints hd).trans m3⟩

/-- A frame with the mug selected that sees a scene change leaves the three
tables. -/
lemma frame_mug_changed (extractor : GlyphExtractor) (errs : ℕ → List ℕ) (s : MainState)
    (hs : s.sceneId = 0) (hl : s.lastScene ≠ s.sceneId) :
    (main.frame extractor errs s).state.vertices = mugTable.filled
    ∧ (main.frame extractor errs s).state.verticesControl = mugTable.controlPolygon
    ∧ (main.frame extractor errs s).state.verticesControlPoints = mugTable.controlPoints := by
  have hq := (frame_changed extractor errs s hl).1
  rw [hs] at hq
  have hd : (main.frame extractor errs s).state.toDestinations = mug Destinations.empty :=
    congrArg Prod.fst hq
  obtain ⟨m1, m2, m3⟩ := mug_tables Destinations.empty
  exact ⟨(congrArg Destinations.vertices hd).trans m1,
    (congrArg Destinations.verticesControl hd).trans m2,
    (congrArg Destinations.verticesControlPoints hd).trans m3⟩

/-- State after `n + 1` consecutive mug frames, the first seeing the scene
change. -/
lemma frames_mug (extractor : GlyphExtractor) (errs : ℕ → ℕ → List ℕ) (s : MainState)
    (hs : s.sceneId = 0) (hl : s.lastScene ≠ s.sceneId) (n : ℕ) :
    (main.frames extractor errs (n + 1) s).sceneId = 0
    ∧ (main.frames extractor errs (n + 1) s).lastScene = 0
    ∧ (main.frames extractor errs (n + 1) s).vertices
        = (List.replicate (n + 1) mugTable.filled).flatten
    ∧ (main.frames extractor errs (n + 1) s).verticesControl
        = (List.replicate (n + 1) mugTable.controlPolygon).flatten
    ∧ (main.frames extractor errs (n + 1) s).verticesControlPoints
        = (List.replicate (n + 1) mugTable.controlPoints).flatten := by
  induction n with
  | zero =>
    obtain ⟨a1, a2⟩ := frame_scene extractor (errs 0) s
    obtain ⟨b1, b2, b3⟩ := frame_mug_changed extractor (errs 0) s hs hl
    show (main.frame extractor (errs 0) s).state.sceneId = 0
      ∧ (main.frame extractor (errs 0) s).state.lastScene = 0
      ∧ (main.frame extractor (errs 0) s).state.vertices = _
      ∧ (main.frame extractor (errs 0) s).state.verticesControl = _
      ∧ (main.frame extractor (errs 0) s).state.verticesControlPoints = _
    rw [a1, a2, b1, b2, b3]
    simp [hs]
  | succ n ih =>
    obtain ⟨i1, i2, i3, i4, i5⟩ := ih
    obtain ⟨a1, a2⟩ := frame_scene extractor (errs (n + 1))
      (main.frames extractor errs (n + 1) s)
    obtain ⟨b1, b2, b3⟩ := frame_mug_same extractor (errs (n + 1))
      (main.frames extractor errs (n + 1) s) i1 (i2.trans i1.symm)
    show (main.frame extractor (errs (n + 1)) (main.frames extractor errs (n + 1) s)).state.sceneId
        = 0
      ∧ (main.frame extractor (errs (n + 1))
          (main.frames extractor errs (n + 1) s)).state.lastScene = 0
      ∧ (main.frame extractor (errs (n + 1))
          (main.frames extractor errs (n + 1) s)).state.vertices = _
      ∧ (main.frame extractor (errs (n + 1))
          (main.frames extractor errs (n + 1) s)).state.verticesControl = _
      ∧ (main.frame extractor (errs (n + 1))
          (main.frames extractor errs (n + 1) s)).state.verticesControlPoints = _
    rw [a1, a2, b1, b2, b3, i1, i3, i4, i5]
    exact ⟨rfl, rfl, (flatten_replicate_succ _ _).symm, (flatten_replicate_succ _ _).symm,
      (flatten_replicate_succ _ _).symm⟩

/-- The state after `n + 1` frames is the state the frame run after `n` frames
leaves. -/
lemma frames_succ (extractor : GlyphExtractor) (errs : ℕ → ℕ → List ℕ) (s : MainState)
    (n : ℕ) :
    main.frames extractor errs (n + 1) s
      = (main.frame extractor (errs n) (main.frames extractor errs n s)).state := rfl

/-- Frames without events keep the selected scene and the window. -/
lemma frames_scene (extractor : GlyphExtractor) (errs : ℕ → ℕ → List ℕ) (s : MainState)
    (n : ℕ) :
    (main.frames extractor errs n s).sceneId = s.sceneId
    ∧ (main.frames extractor errs n s).window = s.window := by
  induction n with
  | zero => exact ⟨rfl, rfl⟩
  | succ n ih =>
    obtain ⟨k1, _, k3⟩ := selectScene_control extractor (errs n)
      (main.clearOnChange (main.frames extractor errs n s)).1
    have hw : (main.clearOnChange (main.frames extractor errs n s)).1.window
        = (main.frames extractor errs n s).window := by
      unfold main.clearOnChange
      split_ifs <;> rfl
    rw [frames_succ, frame_state]
    exact ⟨k1.trans ((clearOnChange_calls _).2.trans ih.1), k3.trans (hw.trans ih.2)⟩

/-- Frames without events run from a reachable state with the window open lead
to reachable states. -/
lemma frames_reachable (extractor : GlyphExtractor) (errs : ℕ → ℕ → List ℕ) (s : MainState)
    (hr : main.Reachable extractor s) (hw : s.window.shouldClose = false) (n : ℕ) :
    main.Reachable extractor (main.frames extractor errs n s) := by
  induction n with
  | zero => exact hr
  | succ n ih =>
    exact main.Reachable.step (main.frames extractor errs n s) (errs n) [] ih
      (by rw [(frames_scene extractor errs s n).2]; exact hw)

/-- The frame run after `n` mug frames, the first seeing the scene change,
leaves the `n + 1`-fold tables. -/
lemma mug_next_frame (extractor : GlyphExtractor) (errs : ℕ → ℕ → List ℕ) (e : ℕ → List ℕ)
    (s : MainState) (hs : s.sceneId = 0) (hl : s.lastScene ≠ s.sceneId) (n : ℕ) :
    (main.frame extractor e (main.frames extractor errs n s)).state.vertices
        = (List.replicate (n + 1) mugTable.filled).flatten
    ∧ (main.frame extractor e (main.frames extractor errs n s)).state.verticesControl
        = (List.replicate (n + 1) mugTable.controlPolygon).flatten
    ∧ (main.frame extractor e (main.frames extractor errs n s)).state.verticesControlPoints
        = (List.replicate (n + 1) mugTable.controlPoints).flatten := by
  cases n with
  | zero =>
    obtain ⟨b1, b2, b3⟩ := frame_mug_changed extractor e s hs hl
    show (main.frame extractor e s).state.vertices = _
      ∧ (main.frame extractor e s).state.verticesControl = _
      ∧ (main.frame extractor e s).state.verticesControlPoints = _
    rw [b1, b2, b3]
    simp
  | succ m =>
    obtain ⟨i1, i2, i3, i4, i5⟩ := frames_mug extractor errs s hs hl m
    obtain ⟨b1, b2, b3⟩ := frame_mug_same extractor e
      (main.frames extractor errs (m + 1) s) i1 (i2.trans i1.symm)
    rw [b1, b2, b3, i3, i4, i5]
    exact ⟨(flatten_replicate_succ _ _).symm, (flatten_replicate_succ _ _).symm,
      (flatten_replicate_succ _ _).symm⟩

/-- The frame run after `n` mug frames, the first seeing the scene change: the
lengths of the three position vectors it leaves, the counts it records in the
three geometries, what it uploads and the `LoadGeometry` calls it makes. -/
lemma mug_frame (extractor : GlyphExtractor) (errs : ℕ → ℕ → List ℕ) (e : ℕ → List ℕ)
    (s : MainState) (hs : s.sceneId = 0) (hl : s.lastScene ≠ s.sceneId) (n : ℕ) :
    (main.frame extractor e (main.frames extractor errs n s)).state.vertices.length
        = 16 * (n + 1)
    ∧ (main.frame extractor e (main.frames extractor errs n s)).state.verticesControl.length
        = 22 * (n + 1)
    ∧ (main.frame extractor e
        (main.frames extractor errs n s)).state.verticesControlPoints.length = 12 * (n + 1)
    ∧ (main.frame extractor e (main.frames extractor errs n s)).state.geometry.elementCount
        = narrowToInt (16 * (n + 1))
    ∧ (main.frame extractor e
        (main.frames extractor errs n s)).state.geometryControl.elementCount
        = narrowToInt (22 * (n + 1))
    ∧ (main.frame extractor e
        (main.frames extractor errs n s)).state.geometryControlPoints.elementCount
        = narrowToInt (12 * (n + 1))
    ∧ (uploads (main.frame extractor e (main.frames extractor errs n s)).calls).map
        (fun c => match c with
          | .glBufferData _ size _ _ => size
          | _ => 0)
        = [8 * narrowToInt (16 * (n + 1)), 12 * narrowToInt (16 * (n + 1)),
           8 * narrowToInt (22 * (n + 1)), 12 * narrowToInt (22 * (n + 1)),
           8 * narrowToInt (12 * (n + 1)), 12 * narrowToInt (12 * (n + 1))]
    ∧ ∃ c ∈ (main.frame extractor e (main.frames extractor errs n s)).loads,
        c.vertices.length = 22 * (n + 1) ∧ c.elementCount = narrowToInt (22 * (n + 1)) := by
  obtain ⟨h3, h4, h5⟩ := mug_next_frame extractor errs e s hs hl n
  have l3 : (main.frame extractor e (main.frames extractor errs n s)).state.vertices.length
      = 16 * (n + 1) := by
    rw [h3, length_flatten_replicate]
    show (n + 1) * 16 = 16 * (n + 1)
    ring
  have l4 : (main.frame extractor e
      (main.frames extractor errs n s)).state.verticesControl.length = 22 * (n + 1) := by
    rw [h4, length_flatten_replicate]
    show (n + 1) * 22 = 22 * (n + 1)
    ring
  have l5 : (main.frame extractor e
      (main.frames extractor errs n s)).state.verticesControlPoints.length
      = 12 * (n + 1) := by
    rw [h5, length_flatten_replicate]
    show (n + 1) * 12 = 12 * (n + 1)
    ring
  have hsc : (main.frames extractor errs n s).sceneId = 0 :=
    (frames_scene extractor errs s n).1.trans hs
  obtain ⟨u1, u2, u3, u4, u5⟩ := frame_shape_uploads extractor e
    (main.frames extractor errs n s) (Or.inl hsc)
  refine ⟨l3, l4, l5, u2.trans (congrArg narrowToInt l3), u3.trans (congrArg narrowToInt l4),
    u4.trans (congrArg narrowToInt l5), ?_, ?_⟩
  · rw [u1, l3, l4, l5]
    rfl
  · rw [u5]
    exact ⟨_, List.mem_cons_of_mem _ (List.mem_cons_self _ _), l4, congrArg narrowToInt l4⟩

/-- The frame run after `n` mug frames when the control polygon it leaves has `N`
points and `N` converts to the `int` value `z`. -/
lemma mug_frame_narrowed (extractor : GlyphExtractor) (errs : ℕ → ℕ → List ℕ)
    (e : ℕ → List ℕ) (s : MainState) (hs : s.sceneId = 0) (hl : s.lastScene ≠ s.sceneId)
    (n N : ℕ) (z : ℤ) (hN : 22 * (n + 1) = N) (hz : narrowToInt N = z) :
    (main.frame extractor e (main.frames extractor errs n s)).state.verticesControl.length = N
    ∧ (main.frame extractor e
        (main.frames extractor errs n s)).state.geometryControl.elementCount = z
    ∧ ∃ c ∈ (main.frame extractor e (main.frames extractor errs n s)).loads,
        c.vertices.length = N ∧ c.elementCount = z := by
  obtain ⟨_, l4, _, _, c4, _, _, c, hc, hc1, hc2⟩ := mug_frame extractor errs e s hs hl n
  subst hN
  subst hz
  exact ⟨l4, c4, c, hc, hc1, hc2⟩

/-- C16, counterexample: in frame 97,612,894 of the program with the mug selected
throughout, the control polygon has 22 x 97,612,894 = 2,147,483,668 points, and
the element count the frame records for it is -2,147,483,628, not that
number. -/
theorem mug_frame_count_overflows :
    (main.frame sampleExtractor (fun _ => []) overflowState).state.verticesControl.length
        = 2147483668
    ∧ (main.frame sampleExtractor (fun _ => [])
        overflowState).state.geometryControl.elementCount = -2147483628
    ∧ (2147483668 : ℕ) = 22 * 97612894
    ∧ (-2147483628 : ℤ) ≠ 22 * 97612894 :=
  have h := mug_frame_narrowed sampleExtractor (fun _ _ => []) (fun _ => []) sampleStart
    rfl (by decide) 97612893 2147483668 (-2147483628) (by norm_num)
    (by unfold narrowToInt; norm_num)
  by
    unfold overflowState
    exact ⟨h.1, h.2.1, by norm_num, by norm_num⟩

/-- C16, amended: for every `k ≥ 1`, after `k` consecutive render-loop frames with
the mug selected, the first of them seeing the scene change and no event
arriving in between, the filled, control-polygon and control-point vectors are
the `k`-fold repetitions of the literal tables of `mug`, of lengths `16k`, `22k`
and `12k`; the element counts frame `k` records are these lengths converted to
`int`, its six uploads have the byte sizes of these counts, and the counts are
`16k`, `22k` and `12k` themselves while `22k` is below `2^31`. -/
theorem mug_frames_accumulate (extractor : GlyphExtractor) (errs : ℕ → ℕ → List ℕ)
    (s : MainState) (hs : s.sceneId = 0) (hl : s.lastScene ≠ s.sceneId) (k : ℕ) (hk : 1 ≤ k) :
    (main.frames extractor errs k s).vertices = (List.replicate k mugTable.filled).flatten
    ∧ (main.frames extractor errs k s).verticesControl
        = (List.replicate k mugTable.controlPolygon).flatten
    ∧ (main.frames extractor errs k s).verticesControlPoints
        = (List.replicate k mugTable.controlPoints).flatten
    ∧ (main.frames extractor errs k s).vertices.length = 16 * k
    ∧ (main.frames extractor errs k s).verticesControl.length = 22 * k
    ∧ (main.frames extractor errs k s).verticesControlPoints.length = 12 * k
    ∧ (main.frames extractor errs k s).geometry.elementCount = narrowToInt (16 * k)
    ∧ (main.frames extractor errs k s).geometryControl.elementCount = narrowToInt (22 * k)
    ∧ (main.frames extractor errs k s).geometryControlPoints.elementCount
        = narrowToInt (12 * k)
    ∧ (uploads (main.frame extractor (errs (k - 1))
          (main.frames extractor errs (k - 1) s)).calls).map
        (fun c => match c with
          | .glBufferData _ size _ _ => size
          | _ => 0)
        = [8 * narrowToInt (16 * k), 12 * narrowToInt (16 * k),
           8 * narrowToInt (22 * k), 12 * narrowToInt (22 * k),
           8 * narrowToInt (12 * k), 12 * narrowToInt (12 * k)]
    ∧ (22 * k < 2147483648 →
        (main.frames extractor errs k s).geometry.elementCount = 16 * (k : ℤ)
        ∧ (main.frames extractor errs k s).geometryControl.elementCount = 22 * (k : ℤ)
        ∧ (main.frames extractor errs k s).geometryControlPoints.elementCount
            = 12 * (k : ℤ)) := by
  obtain ⟨n, rfl⟩ : ∃ n, k = n + 1 := ⟨k - 1, by omega⟩
  obtain ⟨h3, h4, h5⟩ := mug_next_frame extractor errs (errs n) s hs hl n
  obtain ⟨l3, l4, l5, c3, c4, c5, u, _⟩ := mug_frame extractor errs (errs n) s hs hl n
  rw [frames_succ]
  refine ⟨h3, h4, h5, l3, l4, l5, c3, c4, c5, ?_, ?_⟩
  · rw [Nat.add_sub_cancel]
    exact u
  · intro hlt
    rw [c3, c4, c5, narrowToInt_of_lt _ (by omega), narrowToInt_of_lt _ hlt,
      narrowToInt_of_lt _ (by omega)]
    push_cast
    exact ⟨rfl, rfl, rfl⟩

/-- C16 amended, at three frames from the start of the program: 48, 66 and 36
points, and these are the counts the third frame records. -/
theorem mug_frames_accumulate_witness :
    sampleStart.sceneId = 0 ∧ sampleStart.lastScene ≠ sampleStart.sceneId ∧ 1 ≤ 3
    ∧ 22 * 3 < 2147483648
    ∧ (main.frames sampleExtractor (fun _ _ => []) 3 sampleStart).vertices.length = 16 * 3
    ∧ (main.frames sampleExtractor (fun _ _ => []) 3 sampleStart).verticesControl.length
        = 22 * 3
    ∧ (main.frames sampleExtractor (fun _ _ => []) 3 sampleStart).verticesControlPoints.length
        = 12 * 3
    ∧ (main.frames sampleExtractor (fun _ _ => []) 3 sampleStart).geometry.elementCount
        = 16 * ((3 : ℕ) : ℤ)
    ∧ (main.frames sampleExtractor (fun _ _ => []) 3 sampleStart).geometryControl.elementCount
        = 22 * ((3 : ℕ) : ℤ)
    ∧ (main.frames sampleExtractor (fun _ _ => []) 3
        sampleStart).geometryControlPoints.elementCount = 12 * ((3 : ℕ) : ℤ) :=
  have h := mug_frames_accumulate sampleExtractor (fun _ _ => []) sampleStart rfl
    (by decide) 3 (by decide)
  ⟨rfl, by decide, by decide, by decide, h.2.2.2.1, h.2.2.2.2.1, h.2.2.2.2.2.1,
   (h.2.2.2.2.2.2.2.2.2.2 (by decide)).1, (h.2.2.2.2.2.2.2.2.2.2 (by decide)).2.1,
   (h.2.2.2.2.2.2.2.2.2.2 (by decide)).2.2⟩

/-- C8, counterexample: the state at the head of frame 97,612,894 of the program
(mug selected throughout, no key pressed) is reachable with the window open,
and the frame run from it makes a `LoadGeometry` call with 2,147,483,668
positions and as many colours whose count argument is -2,147,483,628. -/
theorem main_load_count_overflows :
    main.Reachable sampleExtractor overflowState
    ∧ overflowState.window.shouldClose = false
    ∧ ∃ c ∈ (main.frame sampleExtractor (fun _ => []) overflowState).loads,
        c.vertices.length = 2147483668 ∧ c.colours.length = 2147483668
        ∧ c.elementCount = -2147483628
        ∧ (c.vertices.length : ℤ) ≠ c.elementCount := by
  unfold overflowState
  have hr : main.Reachable sampleExtractor
      (main.frames sampleExtractor (fun _ _ => []) 97612893 sampleStart) :=
    frames_reachable sampleExtractor (fun _ _ => []) sampleStart
      (main.Reachable.start ⟨false⟩ 1 2 3 (fun _ => 0)
        (fun k => (3 * k + 1, 3 * k + 2, 3 * k + 3)) (fun _ => []))
      rfl 97612893
  have hw : (main.frames sampleExtractor (fun _ _ => []) 97612893
      sampleStart).window.shouldClose = false :=
    (congrArg GLFWwindow.shouldClose
      (frames_scene sampleExtractor (fun _ _ => []) sampleStart 97612893).2).trans rfl
  obtain ⟨_, _, c, hc, hc1, hc2⟩ := mug_frame_narrowed sampleExtractor (fun _ _ => [])
    (fun _ => []) sampleStart rfl (by decide) 97612893 2147483668 (-2147483628)
    (by norm_num) (by unfold narrowToInt; norm_num)
  have hcons := (frame_parallel sampleExtractor (fun _ => []) _
    (reachable_parallel sampleExtractor _ hr)).1 c hc
  refine ⟨hr, hw, c, hc, hc1, hcons.1.symm.trans hc1, hc2, ?_⟩
  rw [hc1, hc2]
  norm_num

/-! ## Patch alignment -/

/-- With degrees 1 to 3 every segment emits four points. -/
lemma emittedPoints_length (segs : List MySegment)
    (h : ∀ seg ∈ segs, seg.degree = 1 ∨ seg.degree = 2 ∨ seg.degree = 3) :
    (emittedPoints segs).length = 4 * segs.length := by
  induction segs with
  | nil => rfl
  | cons seg rest ih =>
    have hcons : seg :: rest = [seg] ++ rest := rfl
    rw [hcons, emittedPoints_append, List.length_append, emittedPoints_singleton,
      ih (fun t ht => h t (List.mem_cons_of_mem seg ht))]
    have hd := h seg (List.mem_cons_self seg rest)
    simp only [List.length_append, List.length_map, List.length_range, List.length_replicate,
      List.length_cons, List.length_nil]
    omega

/-- With degrees 1 to 3 a letter has a multiple of four points. -/
lemma extractLetter_length (extractor : GlyphExtractor) (h : extractor.DegreesOneToThree)
    (letter : Char) (fontString : String) :
    4 ∣ (extractLetter extractor [] [] letter fontString).1.length := by
  rw [extractLetter_eq]
  simp only [List.nil_append]
  rw [emittedPoints_length]
  · exact Dvd.intro _ rfl
  · intro seg hseg
    obtain ⟨contour, hc, hs⟩ := List.mem_flatten.mp hseg
    exact h fontString letter contour hc seg hs

/-- A placement loop adds the letter's points. -/
lemma place_points_length (letterPoints : List vec2) (offset : vec2)
    (acc : List vec2 × List vec3) :
    (extractFont.place letterPoints offset acc).1.length
      = acc.1.length + letterPoints.length := by
  rw [place_eq]
  simp

/-- With degrees 1 to 3 `extractFont` keeps the number of points a multiple of
four. -/
lemma extractFont_aligned (extractor : GlyphExtractor) (h : extractor.DegreesOneToThree)
    (fontPoints : List vec2) (fontColors : List vec3) (fontString : String)
    (hp : 4 ∣ fontPoints.length) :
    4 ∣ (extractFont extractor fontPoints fontColors fontString).1.length := by
  unfold extractFont
  simp only [place_points_length]
  exact Nat.dvd_add (Nat.dvd_add (Nat.dvd_add (Nat.dvd_add (Nat.dvd_add (Nat.dvd_add hp
    (extractLetter_length extractor h _ _)) (extractLetter_length extractor h _ _))
    (extractLetter_length extractor h _ _)) (extractLetter_length extractor h _ _))
    (extractLetter_length extractor h _ _)) (extractLetter_length extractor h _ _)

/-- The function `fish` leaves twenty filled points. -/
lemma fish_filled_length (d : Destinations) : (fish d).vertices.length = 20 := by
  simp [fish, fish.points, clear]

/-- The scene-change block keeps the alignment. -/
lemma clearOnChange_aligned (s : MainState) (ha : s.Aligned) :
    (main.clearOnChange s).1.Aligned := by
  unfold main.clearOnChange
  split_ifs
  · exact ⟨Nat.dvd_zero 4, Nat.dvd_zero 4, ha.2.2⟩
  · exact ha

/-- The scene selection keeps the alignment. -/
lemma selectScene_aligned (extractor : GlyphExtractor) (h : extractor.DegreesOneToThree)
    (errs : ℕ → List ℕ) (s : MainState) (ha : s.Aligned) :
    (main.selectScene extractor errs s).state.Aligned := by
  obtain ⟨a1, a2, a3⟩ := ha
  unfold main.selectScene
  split_ifs
  · refine ⟨?_, a2, rfl⟩
    show 4 ∣ (mug s.toDestinations).vertices.length
    rw [(mug_tables s.toDestinations).1, List.length_append]
    exact Nat.dvd_add a1 ⟨4, rfl⟩
  · refine ⟨?_, a2, rfl⟩
    show 4 ∣ (fish s.toDestinations).vertices.length
    rw [(fish_filled_length s.toDestinations)]
    exact ⟨5, rfl⟩
  · exact ⟨a1, extractFont_aligned extractor h _ _ _ a2, a3⟩
  · exact ⟨a1, extractFont_aligned extractor h _ _ _ a2, a3⟩
  · exact ⟨a1, extractFont_aligned extractor h _ _ _ a2, a3⟩
  · exact ⟨a1, a2, a3⟩

/-- A frame keeps the alignment. -/
lemma frame_aligned (extractor : GlyphExtractor) (h : extractor.DegreesOneToThree)
    (errs : ℕ → List ℕ) (s : MainState) (ha : s.Aligned) :
    (main.frame extractor errs s).state.Aligned :=
  selectScene_aligned extractor h errs (main.clearOnChange s).1 (clearOnChange_aligned s ha)

/-- Polling events keeps the alignment. -/
lemma pollEvents_aligned (events : List Event) (s : MainState) (ha : s.Aligned) :
    (main.pollEvents events s).Aligned := by
  unfold main.pollEvents
  induction events generalizing s with
  | nil => exact ha
  | cons e events ih =>
    rw [List.foldl_cons]
    apply ih
    cases e <;> exact ha

/-- Every state at the head of the render loop is aligned. -/
lemma reachable_aligned (extractor : GlyphExtractor) (h : extractor.DegreesOneToThree)
    (s : MainState) (hr : main.Reachable extractor s) : s.Aligned := by
  induction hr with
  | start window program program2 program3 textureBuffer names errs =>
    exact ⟨Nat.dvd_zero 4, Nat.dvd_zero 4, rfl⟩
  | step s errs events _ _ ih =>
    exact pollEvents_aligned events _ (frame_aligned extractor h errs s ih)

/-- A frame with no scene between 0 and 4 selected draws nothing. -/
lemma frame_draws_none (extractor : GlyphExtractor) (errs : ℕ → List ℕ) (s : MainState)
    (h0 : s.sceneId ≠ 0) (h1 : s.sceneId ≠ 1) (h2 : s.sceneId ≠ 2) (h3 : s.sceneId ≠ 3)
    (h4 : s.sceneId ≠ 4) :
    drawCalls (main.frame extractor errs s).calls = [] := by
  have hid := (clearOnChange_calls s).2
  rw [frame_calls, drawCalls_append, frame_head_draws]
  unfold main.selectScene
  rw [if_neg (by rw [hid]; exact h0), if_neg (by rw [hid]; exact h1),
    if_neg (by rw [hid]; exact h2), if_neg (by rw [hid]; exact h3),
    if_neg (by rw [hid]; exact h4)]
  rfl

/-- A draw call of a trace is one of its draw calls. -/
lemma mem_drawCalls (calls : List GLCall) (mode : GLenum) (first count : ℤ)
    (h : GLCall.glDrawArrays mode first count ∈ calls) :
    GLCall.glDrawArrays mode first count ∈ drawCalls calls := by
  unfold drawCalls
  exact List.mem_filter.mpr ⟨h, rfl⟩

/-- C17: patch alignment.  When every glyph segment has degree 1, 2 or 3, in
every reachable state of the render loop, for any key presses and any number of
frames, every draw call the next frame issues with the patch primitive starts at
vertex 0 and has a vertex count that is a multiple of the patch size 4, and the
patch size is 4. -/
theorem patch_draws_aligned (extractor : GlyphExtractor)
    (hdeg : extractor.DegreesOneToThree) (s : MainState)
    (hr : main.Reachable extractor s) (errs : ℕ → List ℕ) (first count : ℤ)
    (hcall : GLCall.glDrawArrays GL_PATCHES first count ∈ (main.frame extractor errs s).calls) :
    first = 0 ∧ (4 : ℤ) ∣ count ∧ (main.frame extractor errs s).state.patchSize = 4 := by
  obtain ⟨a1, a2, a3⟩ := frame_aligned extractor hdeg errs s
    (reachable_aligned extractor hdeg s hr)
  have hmem := mem_drawCalls _ _ _ _ hcall
  by_cases h01 : s.sceneId = 0 ∨ s.sceneId = 1
  · rw [((frame_draws extractor errs s).1 h01).1] at hmem
    simp only [List.mem_cons, GLCall.glDrawArrays.injEq, List.mem_singleton,
      List.not_mem_nil, or_false, reduceCtorEq, false_and, and_false, true_and] at hmem
    obtain ⟨hf, hc⟩ := hmem
    exact ⟨hf, hc ▸ narrowToInt_dvd _ a1, a3⟩
  · by_cases h234 : s.sceneId = 2 ∨ s.sceneId = 3 ∨ s.sceneId = 4
    · rw [((frame_draws extractor errs s).2 h234).1] at hmem
      simp only [List.mem_singleton, GLCall.glDrawArrays.injEq, true_and] at hmem
      obtain ⟨hf, hc⟩ := hmem
      exact ⟨hf, hc ▸ narrowToInt_dvd _ a2, a3⟩
    · push_neg at h01 h234
      rw [frame_draws_none extractor errs s h01.1 h01.2 h234.1 h234.2.1 h234.2.2] at hmem
      exact absurd hmem (List.not_mem_nil _)

/-- The sample font parser only returns segments of degree 1, 2 or 3. -/
lemma sampleExtractor_degrees : sampleExtractor.DegreesOneToThree := by
  intro fontString letter contour hc seg hs
  simp only [sampleExtractor, List.mem_cons, List.mem_singleton, List.not_mem_nil,
    or_false] at hc
  rcases hc with rfl | rfl
  · simp only [List.mem_singleton] at hs
    subst hs
    exact Or.inr (Or.inr rfl)
  · simp only [List.mem_cons, List.mem_singleton, List.not_mem_nil, or_false] at hs
    rcases hs with rfl | rfl | rfl
    · exact Or.inl rfl
    · exact Or.inr (Or.inl rfl)
    · exact Or.inr (Or.inr rfl)

/-- The first frame of the program draws the sixteen mug points as patches. -/
lemma sampleStart_patch_draw :
    GLCall.glDrawArrays GL_PATCHES 0 16
      ∈ (main.frame sampleExtractor (fun _ => []) sampleStart).calls := by
  have h := ((frame_draws sampleExtractor (fun _ => []) sampleStart).1 (Or.inl rfl)).1
  have hm : GLCall.glDrawArrays GL_PATCHES 0 16
      ∈ drawCalls (main.frame sampleExtractor (fun _ => []) sampleStart).calls := by
    rw [h]
    exact List.mem_cons_self _ _
  exact (List.mem_filter.mp hm).1

/-- C17 at the first frame of the program with the sample font parser: the patch
draw call has count 16. -/
theorem patch_draws_aligned_witness :
    sampleExtractor.DegreesOneToThree
    ∧ main.Reachable sampleExtractor sampleStart
    ∧ GLCall.glDrawArrays GL_PATCHES 0 16
        ∈ (main.frame sampleExtractor (fun _ => []) sampleStart).calls
    ∧ (0 : ℤ) = 0 ∧ (4 : ℤ) ∣ 16
    ∧ (main.frame sampleExtractor (fun _ => []) sampleStart).state.patchSize = 4 :=
  have hr : main.Reachable sampleExtractor sampleStart :=
    main.Reachable.start ⟨false⟩ 1 2 3 (fun _ => 0)
      (fun k => (3 * k + 1, 3 * k + 2, 3 * k + 3)) (fun _ => [])
  ⟨sampleExtractor_degrees, hr, sampleStart_patch_draw,
   patch_draws_aligned sampleExtractor sampleExtractor_degrees sampleStart hr (fun _ => [])
     0 16 sampleStart_patch_draw⟩

end Boilerplate
